import Mathlib

/-!
Verification development for the yt_dlp_async pipeline repository.

The Python sources are embedded shallowly: pure helpers become Lean
functions over `List Char` / `String`, stateful code becomes explicit
state passing, and fallible code returns `Except PyErr`.  Python
runtime errors that the source can raise (UnboundLocalError,
AttributeError, TypeError, ValueError) are modelled as values of
`PyErr`.  Each definition cites the source file and lines it embeds.
-/

namespace YtDlp

/-- Python runtime errors that the embedded code can raise. -/
inductive PyErr where
  | unboundLocalError (name : String)
  | attributeError (name : String)
  | typeError (msg : String)
  | valueError (msg : String)
  | indexError (msg : String)
  | keyError (name : String)
  deriving Repr, DecidableEq

/-! ## Basic string machinery (Python `str` operations on `List Char`) -/

/-- `p` is a prefix of `s` (Python `str.startswith` on list-of-char form). -/
def startsWithL : List Char → List Char → Bool
  | [], _ => true
  | _ :: _, [] => false
  | a :: as, b :: bs => a == b && startsWithL as bs

/-- Python `sub in s` substring test (for nonempty `sub`, and `[] ∈ s` is true). -/
def containsSub (s sub : List Char) : Bool :=
  if startsWithL sub s then true
  else
    match s with
    | [] => false
    | _ :: rest => containsSub rest sub

/-- Auxiliary worker for `splitSub`; `fuel` bounds the recursion and is
always given as more than the length of the text, so it never runs out. -/
def splitGo (sep : List Char) : Nat → List Char → List Char → List (List Char)
  | 0, cur, _ => [cur.reverse]
  | fuel + 1, cur, s =>
    if !sep.isEmpty && startsWithL sep s then
      cur.reverse :: splitGo sep fuel [] (s.drop sep.length)
    else
      match s with
      | [] => [cur.reverse]
      | c :: rest => splitGo sep fuel (c :: cur) rest

/-- Python `s.split(sep)` for a nonempty separator: non-overlapping,
left-to-right, keeping empty segments. -/
def splitSub (sep s : List Char) : List (List Char) :=
  splitGo sep (s.length + 1) [] s

/-- Characters counted as word characters by the regex `\b` / `\w`
(ASCII model of Python `re`). -/
def isWordChar (c : Char) : Bool :=
  (Char.ofNat 97 ≤ c && c ≤ Char.ofNat 122) ||
  (Char.ofNat 65 ≤ c && c ≤ Char.ofNat 90) ||
  (Char.ofNat 48 ≤ c && c ≤ Char.ofNat 57) ||
  c == Char.ofNat 95

/-- ASCII decimal digit (model of the regex `\d`). -/
def isDigitA (c : Char) : Bool :=
  Char.ofNat 48 ≤ c && c ≤ Char.ofNat 57

/-- ASCII whitespace (model of the regex `\s`). -/
def isSpaceA (c : Char) : Bool :=
  c == Char.ofNat 32 || c == Char.ofNat 9 || c == Char.ofNat 10 ||
  c == Char.ofNat 13 || c == Char.ofNat 12 || c == Char.ofNat 11

/-! ## Team alias-to-code table

`src/yt-dlp-async/metadata.py`, `Metadata.team_abbreviations`: the alias
table mapping free-text team mentions to canonical codes, in the
dictionary's insertion order. -/

def team_abbreviations : List (String × String) :=
  [("los angeles angels", "ana"), ("los angeles angels of anaheim", "ana"),
   ("anaheim angels", "ana"), ("angels", "ana"), ("cal", "ana"),
   ("laa", "ana"), ("ana", "ana"),
   ("arizona diamondbacks", "ari"), ("diamondbacks", "ari"),
   ("arizona", "ari"), ("ari", "ari"),
   ("atlanta braves", "atl"), ("braves", "atl"), ("atlanta", "atl"),
   ("atl", "atl"),
   ("baltimore orioles", "bal"), ("orioles", "bal"), ("baltimore", "bal"),
   ("bal", "bal"),
   ("boston red sox", "bos"), ("red sox", "bos"), ("boston", "bos"),
   ("bos", "bos"),
   ("chicago cubs", "chn"), ("cubs", "chn"), ("chc", "chn"), ("chn", "chn"),
   ("chicago white sox", "cha"), ("white sox", "cha"), ("chw", "cha"),
   ("cws", "cha"), ("cha", "cha"),
   ("cincinnati reds", "cin"), ("reds", "cin"), ("cincinnati", "cin"),
   ("cin", "cin"),
   ("cleveland indians", "cle"), ("cleveland guardians", "cle"),
   ("indians", "cle"), ("guardians", "cle"), ("cleveland", "cle"),
   ("cle", "cle"),
   ("colorado rockies", "col"), ("rockies", "col"), ("colorado", "col"),
   ("col", "col"),
   ("detroit tigers", "det"), ("tigers", "det"), ("detroit", "det"),
   ("det", "det"),
   ("houston astros", "hou"), ("astros", "hou"), ("houston", "hou"),
   ("hou", "hou"),
   ("kansas city royals", "kca"), ("royals", "kca"), ("kansas city", "kca"),
   ("kc", "kca"), ("kca", "kca"),
   ("los angeles dodgers", "lan"), ("dodgers", "lan"), ("la", "lan"),
   ("lad", "lan"), ("lan", "lan"),
   ("miami marlins", "mia"), ("florida marlins", "mia"), ("marlins", "mia"),
   ("miami", "mia"), ("fla", "mia"), ("flo", "mia"), ("mia", "mia"),
   ("milwaukee brewers", "mil"), ("brewers", "mil"), ("milwaukee", "mil"),
   ("mil", "mil"),
   ("minnesota twins", "min"), ("twins", "min"), ("minnesota", "min"),
   ("min", "min"),
   ("montreal expos", "mon"), ("montreal", "mon"), ("expos", "mon"),
   ("mon", "mon"),
   ("new york mets", "nyn"), ("mets", "nyn"), ("nym", "nyn"), ("nyn", "nyn"),
   ("new york yankees", "nya"), ("yankees", "nya"), ("nyy", "nya"),
   ("nya", "nya"),
   ("oakland athletics", "oak"), ("athletics", "oak"), ("oakland", "oak"),
   ("oak", "oak"),
   ("philadelphia phillies", "phi"), ("phillies", "phi"),
   ("philadelphia", "phi"), ("phi", "phi"),
   ("pittsburgh pirates", "pit"), ("pirates", "pit"), ("pittsburgh", "pit"),
   ("pit", "pit"),
   ("san diego padres", "sdn"), ("padres", "sdn"), ("san diego", "sdn"),
   ("sd", "sdn"), ("sdn", "sdn"),
   ("san francisco giants", "sfn"), ("giants", "sfn"),
   ("san francisco", "sfn"), ("sf", "sfn"), ("sfn", "sfn"),
   ("seattle mariners", "sea"), ("mariners", "sea"), ("seattle", "sea"),
   ("sea", "sea"),
   ("st. louis cardinals", "sln"), ("cardinals", "sln"), ("st. louis", "sln"),
   ("stl", "sln"), ("sln", "sln"),
   ("tampa bay rays", "tba"), ("tampa bay devil rays", "tba"), ("rays", "tba"),
   ("tampa bay", "tba"), ("tb", "tba"), ("tba", "tba"),
   ("texas rangers", "tex"), ("rangers", "tex"), ("texas", "tex"),
   ("tex", "tex"),
   ("toronto blue jays", "tor"), ("blue jays", "tor"), ("toronto", "tor"),
   ("tor", "tor"),
   ("washington nationals", "was"), ("nationals", "was"),
   ("washington", "was"), ("wsh", "was"), ("was", "was")]

/-! ## TeamNameResolver (`src/yt_dlp_async/utils.py`, `Utils.extract_teams`, lines 319-409) -/

/-- Worker for whole-word search: tries to match `needle` (an alias) at the current
position (whose preceding character is `prev`) and otherwise advances.
Since every needle in the table begins and ends with a word character,
the regex `\b<needle>\b` matches at a position exactly when the preceding
and following characters (if any) are non-word characters. -/
def wholeWordGo (needle : List Char) : Option Char → List Char → Bool
  | prev, s =>
    if (match prev with | none => true | some c => !isWordChar c)
        && startsWithL needle s
        && (match s.drop needle.length with
            | [] => true
            | c :: _ => !isWordChar c) then
      true
    else
      match s with
      | [] => false
      | c :: rest => wholeWordGo needle (some c) rest

/-- `re.search(r'\b' + re.escape(needle) + r'\b', part)` viewed as a Bool
(utils.py line 352). -/
def wholeWordMatch (needle part : List Char) : Bool :=
  wholeWordGo needle none part

/-- Python `set.add`: extend the candidate collection only with unseen codes. -/
def addCode (x : String) (l : List String) : List String :=
  if l.contains x then l else l ++ [x]

/-- `find_team_candidates` (utils.py lines 350-353): scan the alias table
in order and collect the set of canonical codes whose alias occurs as a
whole word in `part`. -/
def findTeamCandidates (part : List Char) : List String :=
  team_abbreviations.foldl
    (fun acc kv => if wholeWordMatch kv.1.data part then addCode kv.2 acc else acc)
    []

/-- The ordered delimiter list of utils.py line 338. -/
def delimiterList : List (List Char) :=
  [" at ".data, " @ ".data, " vs ".data, " vs. ".data]

/-- `next(iter(s))` for the singleton candidate sets reached in the source. -/
def firstOf (l : List String) : String :=
  l.headD "unknown"

/-- The `if`/`elif` chain of utils.py lines 365-402 applied to the away and
home candidate sets; `none` means no branch returned (fall-through). -/
def resolveCandidates (awayC homeC : List String) : Option (String × String) :=
  if awayC.length = 1 ∧ homeC.length = 1 then
    some (firstOf homeC, firstOf awayC)
  else if awayC.length = 1 ∧ homeC.length = 0 then
    some ("unknown", firstOf awayC)
  else if homeC.length = 1 ∧ awayC.length = 0 then
    some (firstOf homeC, "unknown")
  else if awayC.length = 1 ∧ homeC.length > 1 then
    let knownAway := firstOf awayC
    let homeRest := homeC.erase knownAway
    if homeRest.length = 1 then some (firstOf homeRest, knownAway)
    else if homeRest.length > 1 then some ("unknown", knownAway)
    else none
  else if homeC.length = 1 ∧ awayC.length > 1 then
    let knownHome := firstOf homeC
    let awayRest := awayC.erase knownHome
    if awayRest.length = 1 then some (knownHome, firstOf awayRest)
    else if awayRest.length > 1 then some (knownHome, "unknown")
    else none
  else none

/-- The delimiter loop of utils.py lines 338-409.  A delimiter that is
present but whose candidate analysis neither returns (lines 365-402) nor
hits the both-sides-multiple case (lines 405-406) falls through to the
next delimiter, exactly as the Python `for` loop does. -/
def scanDelimiters : List (List Char) → List Char → String × String
  | [], _ => ("unknown", "unknown")
  | d :: rest, txt =>
    if containsSub txt d then
      let parts := splitSub d txt
      let homeC := findTeamCandidates (parts.getD 1 [])
      let awayC := findTeamCandidates (parts.getD 0 [])
      match resolveCandidates awayC homeC with
      | some r => r
      | none =>
        if awayC.length > 1 ∧ homeC.length > 1 then ("unknown", "unknown")
        else scanDelimiters rest txt
    else scanDelimiters rest txt

/-- `Utils.extract_teams` (utils.py lines 319-409): lowercase the text and
run the delimiter loop; returns `(home_team, away_team)`. -/
def extract_teams (text : String) : String × String :=
  scanDelimiters delimiterList (text.data.map Char.toLower)

/-- The first delimiter of the ordered list that occurs in the lowercased
text (used to state the claims about delimiter order). -/
def firstFoundDelimiter (text : String) : Option (List Char) :=
  delimiterList.find? (fun d => containsSub (text.data.map Char.toLower) d)

/-- Away and home candidate sets obtained by splitting the lowercased text
at delimiter `d` (segments 0 and 1, as in the source). -/
def sideCandidates (text : String) (d : List Char) : List String × List String :=
  let parts := splitSub d (text.data.map Char.toLower)
  (findTeamCandidates (parts.getD 0 []), findTeamCandidates (parts.getD 1 []))

/-- The outcomes of one delimiter iteration that make the source return
without trying further delimiters: either a branch of the `if`/`elif`
chain fires, or both candidate sets have several elements. -/
def decisiveOutcome (awayC homeC : List String) : Option (String × String) :=
  match resolveCandidates awayC homeC with
  | some r => some r
  | none =>
    if awayC.length > 1 ∧ homeC.length > 1 then some ("unknown", "unknown")
    else none

/-- Modelled from the claim wording for delimiter handling: the first
delimiter of the ordered list that occurs in the lowercased text
determines the split, and no later delimiter is ever tried, whatever the
outcome of team matching on the two segments ("all else fails" yielding
the unknown pair). -/
def claimNoBacktrack (text : String) : String × String :=
  match firstFoundDelimiter text with
  | none => ("unknown", "unknown")
  | some d =>
    match resolveCandidates (sideCandidates text d).1 (sideCandidates text d).2 with
    | some r => r
    | none => ("unknown", "unknown")

/-! ## PersistenceGateway: table `yt_videos_to_be_processed`
(`src/yt_dlp_async/database.py`)

A row is `(video_id, has_failed_metadata)`; the primary key is
`video_id`, so well-formed tables have pairwise distinct keys. -/

/-- The `yt_videos_to_be_processed` table. -/
abbrev VideosTable := List (String × Bool)

/-- Keys of a table. -/
def tableKeys (t : VideosTable) : List String :=
  t.map Prod.fst

/-- Reading the `has_failed_metadata` flag of a row by primary key. -/
def lookupFlag : VideosTable → String → Option Bool
  | [], _ => none
  | r :: rest, v => if r.1 == v then some r.2 else lookupFlag rest v

/-- `DatabaseOperations.set_video_id_failed_metadata_true`
(database.py lines 175-198): `UPDATE yt_videos_to_be_processed SET
has_failed_metadata = TRUE WHERE video_id = %s`, executed for every id
of the given collection. -/
def set_video_id_failed_metadata_true (vids : List String) (t : VideosTable) : VideosTable :=
  t.map (fun r => if vids.contains r.1 then (r.1, true) else r)

/-- One row of the bulk insert (database.py lines 252-257):
`INSERT INTO yt_videos_to_be_processed (video_id) ... ON CONFLICT
(video_id) DO NOTHING`; a fresh row carries the column default `false`. -/
def insertOrIgnoreRow (t : VideosTable) (v : String) : VideosTable :=
  if t.any (fun r => r.1 == v) then t else t ++ [(v, false)]

/-- `DatabaseOperations.insert_video_ids_bulk` (database.py lines 226-274)
restricted to its effect on the table. -/
def insert_video_ids_bulk (vids : List String) (t : VideosTable) : VideosTable :=
  vids.foldl insertOrIgnoreRow t

/-- The candidate pool of `DatabaseOperations.get_video_ids_without_metadata`
(database.py lines 143-173): `SELECT video_id FROM
yt_videos_to_be_processed WHERE has_failed_metadata = FALSE ORDER BY
RANDOM() LIMIT 50`.  Whatever sample the query returns is a subset of
this pool, so an id outside the pool is never returned. -/
def get_video_ids_without_metadata_pool (t : VideosTable) : List String :=
  (t.filter (fun r => r.2 == false)).map Prod.fst

/-- The writes the source performs on `yt_videos_to_be_processed`: the
bulk insert-or-ignore and the quarantine update are the only statements
in the repository that touch this table. -/
inductive VideosOp where
  | bulkInsert (vids : List String)
  | setFailed (vids : List String)

/-- Interpretation of one table operation. -/
def applyVideosOp : VideosOp → VideosTable → VideosTable
  | .bulkInsert vids, t => insert_video_ids_bulk vids t
  | .setFailed vids, t => set_video_id_failed_metadata_true vids t

/-- Interpretation of a sequence of table operations. -/
def applyVideosOps (ops : List VideosOp) (t : VideosTable) : VideosTable :=
  ops.foldl (fun acc op => applyVideosOp op acc) t

/-! ## MetadataAcquisitionPipeline (`src/yt_dlp_async/video_metadata.py`)

Module level (line 31): `is_quota_exceeded = False`, the shared flag the
retrieval workers read.  The pipeline's interaction with the external
API is modelled by passing the response the API would give to the
embedded functions. -/

/-- One element of the `items` array of a metadata API response; only its
`id` field is inspected by `fetch_video_metadata` (line 99). -/
structure ApiItem where
  id : String
  deriving Repr, DecidableEq

/-- The metadata API responses distinguished by
`VideoIdOperations.fetch_video_metadata` (lines 91-116). -/
inductive ApiResponse where
  | ok (items : List ApiItem)
  | forbidden (reason : String)
  | failure (status : Nat)
  deriving Repr, DecidableEq

/-- Observable outcome of one `fetch_video_metadata` call: its return
value or raised error, the module-level `is_quota_exceeded` flag after
the call, whether the HTTP request was reached, and the ids passed to
`set_video_id_failed_metadata_true`. -/
structure FetchOutcome where
  result : Except PyErr (List ApiItem)
  quotaFlagAfter : Bool
  httpIssued : Bool
  quarantined : List String
  deriving Repr

/-- `VideoIdOperations.fetch_video_metadata` (video_metadata.py lines
67-120).  The function declares `global is_quota_exceeded` (line 79) but
reads and assigns the distinct name `isQuotaExceeded` (lines 84 and
111).  Because `isQuotaExceeded` is assigned somewhere in the body and
is not declared global, Python's scoping rules make it a local variable
of the whole function, so the line-84 read finds it unbound and raises
UnboundLocalError before the HTTP request is issued.  The branches below
the guard translate lines 85-120 and are unreachable. -/
def fetch_video_metadata (is_quota_exceeded : Bool) (resp : ApiResponse)
    (video_ids : List String) : FetchOutcome :=
  let isQuotaExceededLocal : Option Bool := none
  match isQuotaExceededLocal with
  | none =>
    { result := .error (.unboundLocalError "isQuotaExceeded")
      quotaFlagAfter := is_quota_exceeded
      httpIssued := false
      quarantined := [] }
  | some q =>
    if !q then
      match resp with
      | .ok items =>
        if !items.isEmpty then
          -- lines 94-104: set difference between requested and returned ids
          let returnedIds := items.map ApiItem.id
          let problematic := video_ids.dedup.filter (fun v => !returnedIds.contains v)
          { result := .ok items, quotaFlagAfter := is_quota_exceeded,
            httpIssued := true, quarantined := problematic }
        else
          -- HTTP 200 with an empty `items` falls through to `return []`
          -- (line 117) without quarantining anything
          { result := .ok [], quotaFlagAfter := is_quota_exceeded,
            httpIssued := true, quarantined := [] }
      | .forbidden reason =>
        if reason == "quotaExceeded" then
          -- line 111 assigns the function-local `isQuotaExceeded` only;
          -- the module-level flag is untouched
          { result := .ok [], quotaFlagAfter := is_quota_exceeded,
            httpIssued := true, quarantined := [] }
        else
          { result := .ok [], quotaFlagAfter := is_quota_exceeded,
            httpIssued := true, quarantined := [] }
      | .failure _ =>
        { result := .ok [], quotaFlagAfter := is_quota_exceeded,
          httpIssued := true, quarantined := [] }
    else
      { result := .ok [], quotaFlagAfter := is_quota_exceeded,
        httpIssued := false, quarantined := [] }

/-- The record-pushing loop of `worker_retrieve_metadata` (lines
214-219).  `Utils.prep_metadata_dictionary` succeeds, but line 216,
`event_date, _ = await Utils.extract_date(meta_dict["title"])`, awaits
the non-awaitable return value of the plain function `Utils.extract_date`
(a datetime or None, never a pair), raising TypeError on the first item;
so the loop pushes no record onto `metadata_queue`.  The result counts
the records pushed before the loop raises. -/
def pushRecordsLoop : List ApiItem → Except PyErr Nat
  | [] => .ok 0
  | _ :: _ => .error (.typeError "object datetime is not awaitable")

/-- Observable outcome of one pass of the retrieval worker's `while`
body. -/
structure IterationOutcome where
  quotaFlagAfter : Bool
  httpIssued : Bool
  pushedRecords : Nat
  quarantined : List String
  deriving Repr, DecidableEq

/-- One pass of the `worker_retrieve_metadata` loop body
(video_metadata.py lines 204-227), given the ids returned by
`get_video_ids_without_metadata` and the response the API would give.
Exceptions raised inside the `try` block are caught at line 221 and
leave the effects already performed in place. -/
def worker_retrieve_iteration (flag : Bool) (dbIds : List String)
    (resp : ApiResponse) : IterationOutcome :=
  if flag then
    -- line 208: quota flag set, no retrieval attempted
    { quotaFlagAfter := flag, httpIssued := false, pushedRecords := 0, quarantined := [] }
  else if dbIds.isEmpty then
    -- line 212: nothing to fetch
    { quotaFlagAfter := flag, httpIssued := false, pushedRecords := 0, quarantined := [] }
  else
    let fetched := fetch_video_metadata flag resp dbIds
    match fetched.result with
    | .error _ =>
      { quotaFlagAfter := fetched.quotaFlagAfter, httpIssued := fetched.httpIssued,
        pushedRecords := 0, quarantined := fetched.quarantined }
    | .ok items =>
      match pushRecordsLoop items with
      | .ok n =>
        { quotaFlagAfter := fetched.quotaFlagAfter, httpIssued := fetched.httpIssued,
          pushedRecords := n, quarantined := fetched.quarantined }
      | .error _ =>
        -- caught at line 221
        { quotaFlagAfter := fetched.quotaFlagAfter, httpIssued := fetched.httpIssued,
          pushedRecords := 0, quarantined := fetched.quarantined }

/-- The module-level `is_quota_exceeded` flag after a sequence of worker
passes, each supplied with its db batch and API response. -/
def runRetrieveBatches (flag : Bool) : List (List String × ApiResponse) → Bool
  | [] => flag
  | (ids, resp) :: rest =>
    runRetrieveBatches (worker_retrieve_iteration flag ids resp).quotaFlagAfter rest

/-- Id used to build concrete batches in the metadata theorems. -/
def vid (i : Nat) : String :=
  "v" ++ toString i

/-! ## IdentifierQueuePipeline (`src/yt_dlp_async/video_id.py`) -/

/-- The id store written by `DatabaseOperations.insert_video_ids`
(database.py lines 200-223): `INSERT INTO yt_video_ids (video_id) ...
ON CONFLICT (video_id) DO NOTHING`. -/
abbrev VideoIdStore := List String

/-- Awaited semantics of `DatabaseOperations.insert_video_ids`. -/
def insert_video_ids (batch : List String) (db : VideoIdStore) : VideoIdStore :=
  batch.foldl (fun acc v => if acc.contains v then acc else acc ++ [v]) db

/-- `Utils.read_ids_from_cli_argument_insert_db` restricted to a list of
seed video ids (utils.py lines 83-86).  Line 86 invokes the async
function `DatabaseOperations.insert_video_ids(video_ids)` without
`await`: the coroutine object is created and discarded, so the insert
never executes.  The store is returned unchanged together with the
number of insert statements actually executed. -/
def read_ids_from_cli_argument_insert_db (seedVideoIds : List String)
    (db : VideoIdStore) : VideoIdStore × Nat :=
  let _ := seedVideoIds
  (db, 0)

/-- The three queues and active-task counters of the identifier pipeline
(`QueueManager`, video_id.py lines 23-32). -/
structure IdQueues where
  userQ : List String
  playlistQ : List String
  videoQ : List String
  activeUser : Nat
  activePlaylist : Nat
  activeVideo : Nat
  deriving Repr, DecidableEq

/-- Exit check of `worker_user_ids` (video_id.py line 216). -/
def userWorkerExits (q : IdQueues) : Bool :=
  q.userQ.isEmpty && q.activeUser == 0

/-- Exit check of `worker_playlist_ids` (video_id.py line 260). -/
def playlistWorkerExits (q : IdQueues) : Bool :=
  q.userQ.isEmpty && q.playlistQ.isEmpty && (q.activeUser + q.activePlaylist == 0)

/-- Exit check of `worker_video_ids` (video_id.py line 299). -/
def videoWorkerExits (q : IdQueues) : Bool :=
  q.userQ.isEmpty && q.playlistQ.isEmpty && q.videoQ.isEmpty &&
    (q.activeUser + q.activePlaylist + q.activeVideo == 0)

/-- The `worker_video_ids` loop (video_id.py lines 298-328) in a run
where no other worker produces queue items: returns the number of
`insert_video_ids` calls issued and the drained batches.  Each non-exit
pass with a nonempty queue drains the entire current queue contents into
one batch (lines 311-313) and issues a single insert call (line 318).
`fuel` bounds the loop; the states evaluated in the theorems exit before
it runs out. -/
def worker_video_ids_run : Nat → IdQueues → Nat × List (List String)
  | 0, _ => (0, [])
  | fuel + 1, q =>
    if videoWorkerExits q then (0, [])
    else if q.videoQ.isEmpty then worker_video_ids_run fuel q
    else
      let batch := q.videoQ
      let next := worker_video_ids_run fuel { q with videoQ := [] }
      (next.1 + 1, batch :: next.2)

/-- Outcome of `Fetcher.fetch` (video_id.py lines 125-182) for a run
seeded with zero user ids, zero playlist ids, and the given video ids. -/
structure IdFetchOutcome where
  db : VideoIdStore
  insertCalls : Nat
  userExitsImmediately : Bool
  playlistExitsImmediately : Bool
  videoExitsImmediately : Bool
  deriving Repr, DecidableEq

/-- `Fetcher.fetch` (video_id.py lines 125-182) seeded with zero user
ids, zero playlist ids, and `seedVideoIds` as the `video_ids` argument:
after the `num_workers` validation (line 151), the worker tasks are
created (lines 156-158), `add_ids_to_queue` is called with `None`
arguments for users and playlists and touches no queue (lines 161-162),
and line 166 calls the async `Utils.read_ids_from_cli_argument_insert_db`
without `await`, so the seed ids never reach the store and no id is ever
put on `video_id_queue`.  All three worker pools then see empty queues
and zero active counters and pass their exit checks at once. -/
def fetch_id_pipeline_seed_videos (seedVideoIds : List String)
    (numWorkers : Nat) (db : VideoIdStore) : IdFetchOutcome :=
  if numWorkers = 0 then
    { db := db, insertCalls := 0, userExitsImmediately := false,
      playlistExitsImmediately := false, videoExitsImmediately := false }
  else
    let q : IdQueues :=
      { userQ := [], playlistQ := [], videoQ := [],
        activeUser := 0, activePlaylist := 0, activeVideo := 0 }
    let seeded := read_ids_from_cli_argument_insert_db seedVideoIds db
    let videoRun := worker_video_ids_run (q.videoQ.length + 1) q
    { db := seeded.1
      insertCalls := seeded.2 + videoRun.1
      userExitsImmediately := userWorkerExits q
      playlistExitsImmediately := playlistWorkerExits q
      videoExitsImmediately := videoWorkerExits q }

/-! ## A small regex engine for the date patterns

Just enough of Python `re` for the patterns the sources use: digit
fields with bounded repetition, literal characters, ordered alternation
of literal words, `\s+`, a single `\s`, `\w+`, and the zero-width `\b`.
Matching is backtracking with greedy preference, like Python's engine;
`\d`, `\s`, `\w` are modelled over ASCII. -/

/-- Regex tokens. -/
inductive RTok where
  | digits (lo hi : Nat)
  | lit (c : Char)
  | word (ws : List (List Char))
  | spaces
  | spaceOne
  | wordRun
  | bound
  deriving Repr

/-- Length of the leading ASCII-digit run. -/
def digitRunLen (s : List Char) : Nat :=
  (s.takeWhile isDigitA).length

/-- Length of the leading whitespace run. -/
def spaceRunLen (s : List Char) : Nat :=
  (s.takeWhile isSpaceA).length

/-- Length of the leading word-character run. -/
def wordRunLen (s : List Char) : Nat :=
  (s.takeWhile isWordChar).length

/-- Word-character status of the character preceding the current
position (`false` at the start of the text). -/
def wordnessOpt : Option Char → Bool
  | none => false
  | some c => isWordChar c

/-- Word-character status of the character at the current position
(`false` at the end of the text). -/
def wordnessHead : List Char → Bool
  | [] => false
  | c :: _ => isWordChar c

/-- The preceding character after consuming `taken`; unchanged when
nothing was consumed. -/
def lastOfTaken (prev : Option Char) (taken : List Char) : Option Char :=
  match taken.getLast? with
  | some c => some c
  | none => prev

/-- First success of `f` over a list, in order. -/
def firstSomeMap {α β : Type} : List α → (α → Option β) → Option β
  | [], _ => none
  | a :: as, f =>
    match f a with
    | some b => some b
    | none => firstSomeMap as f

/-- Candidate repetition lengths `k, k-1, ..., lo` for greedy matching
(empty when `k < lo`). -/
def descRange (lo k : Nat) : List Nat :=
  (List.range' lo (k + 1 - lo)).reverse

/-- Matches a token list against a prefix of `s`, Python-style
(backtracking, greedy preference); `prev` is the character before the
current position (for `\b`).  Returns the captured groups and the
consumed length.  `fuel` decreases at each token and is always supplied
as more than the token count, so it never runs out. -/
def matchToks : Nat → Option Char → List RTok → List Char → Option (List (List Char) × Nat)
  | _, _, [], _ => some ([], 0)
  | 0, _, _ :: _, _ => none
  | fuel + 1, prev, t :: ts, s =>
    match t with
    | .lit c =>
      match s with
      | [] => none
      | x :: rest =>
        if x == c then
          match matchToks fuel (some x) ts rest with
          | some (gs, n) => some (gs, n + 1)
          | none => none
        else none
    | .digits lo hi =>
      firstSomeMap (descRange lo (min hi (digitRunLen s))) (fun k =>
        match matchToks fuel (lastOfTaken prev (s.take k)) ts (s.drop k) with
        | some (gs, n) => some (s.take k :: gs, n + k)
        | none => none)
    | .wordRun =>
      firstSomeMap (descRange 1 (wordRunLen s)) (fun k =>
        match matchToks fuel (lastOfTaken prev (s.take k)) ts (s.drop k) with
        | some (gs, n) => some (s.take k :: gs, n + k)
        | none => none)
    | .spaces =>
      firstSomeMap (descRange 1 (spaceRunLen s)) (fun k =>
        match matchToks fuel (lastOfTaken prev (s.take k)) ts (s.drop k) with
        | some (gs, n) => some (gs, n + k)
        | none => none)
    | .spaceOne =>
      match s with
      | [] => none
      | x :: rest =>
        if isSpaceA x then
          match matchToks fuel (some x) ts rest with
          | some (gs, n) => some (gs, n + 1)
          | none => none
        else none
    | .word ws =>
      firstSomeMap ws (fun w =>
        if startsWithL w s then
          match matchToks fuel (lastOfTaken prev w) ts (s.drop w.length) with
          | some (gs, n) => some (w :: gs, n + w.length)
          | none => none
        else none)
    | .bound =>
      if wordnessOpt prev != wordnessHead s then matchToks fuel prev ts s else none

/-- `re.search`: leftmost match, scanning start positions left to right;
returns the captured groups and the matched substring (`group(0)`). -/
def reSearchGo (toks : List RTok) (fuel : Nat) :
    Option Char → List Char → Option (List (List Char) × List Char)
  | prev, s =>
    match matchToks fuel prev toks s with
    | some (gs, n) => some (gs, s.take n)
    | none =>
      match s with
      | [] => none
      | c :: rest => reSearchGo toks fuel (some c) rest

/-- `re.search` over a whole text. -/
def reSearch (toks : List RTok) (s : List Char) :
    Option (List (List Char) × List Char) :=
  reSearchGo toks (toks.length + 1) none s

/-! ## Calendar validity (the checks `datetime.strptime` performs) -/

/-- A Python `datetime` value (times extracted from text carry 0:00). -/
structure PyDateTime where
  year : Nat
  month : Nat
  day : Nat
  hour : Nat
  minute : Nat
  deriving Repr, DecidableEq

/-- Gregorian leap year. -/
def isLeapYear (y : Nat) : Bool :=
  y % 4 == 0 && (y % 100 != 0 || y % 400 == 0)

/-- Days in a month. -/
def daysInMonth (y m : Nat) : Nat :=
  if m == 2 then (if isLeapYear y then 29 else 28)
  else if m == 4 || m == 6 || m == 9 || m == 11 then 30
  else 31

/-- Digit characters to a number. -/
def digitsToNat (g : List Char) : Nat :=
  g.foldl (fun acc c => acc * 10 + (c.toNat - 48)) 0

/-- The date validation `datetime` performs: year 1-9999, month 1-12,
day within the month. -/
def mkValidDate (y m d : Nat) : Option PyDateTime :=
  if 1 ≤ y ∧ y ≤ 9999 ∧ 1 ≤ m ∧ m ≤ 12 ∧ 1 ≤ d ∧ d ≤ daysInMonth y m then
    some { year := y, month := m, day := d, hour := 0, minute := 0 }
  else none

/-- `strptime`'s two-digit year pivot: 00-68 map to 20xx, 69-99 to 19xx. -/
def expandY2 (n : Nat) : Nat :=
  if n ≤ 68 then 2000 + n else 1900 + n

/-! ## DateExtractor (`src/yt_dlp_async/utils.py`, `Utils.extract_date`, lines 168-291) -/

/-- The character `.`. -/
def dotC : Char := Char.ofNat 46

/-- The character `/`. -/
def slashC : Char := Char.ofNat 47

/-- The character `-`. -/
def dashC : Char := Char.ofNat 45

/-- The character `,`. -/
def commaC : Char := Char.ofNat 44

/-- Regex `(\d{1,2}\.\d{1,2}\.\d{4})` (lines 182 and 193). -/
def pat_dot_Y4 : List RTok :=
  [.digits 1 2, .lit dotC, .digits 1 2, .lit dotC, .digits 4 4]

/-- Regex `(\d{1,2}\.\d{1,2}\.\d{2})` (line 204). -/
def pat_dot_Y2 : List RTok :=
  [.digits 1 2, .lit dotC, .digits 1 2, .lit dotC, .digits 2 2]

/-- Regex `(\d{4}\/\d{1,2}\/\d{1,2})` (line 215). -/
def pat_slash_Yfirst : List RTok :=
  [.digits 4 4, .lit slashC, .digits 1 2, .lit slashC, .digits 1 2]

/-- Regex `(\d{1,2}\/\d{1,2}\/\d{2})` (line 226). -/
def pat_slash_Y2 : List RTok :=
  [.digits 1 2, .lit slashC, .digits 1 2, .lit slashC, .digits 2 2]

/-- Regex `(\d{4}\-\d{1,2}\-\d{1,22})` (line 237; the source's day field
really allows up to 22 digits). -/
def pat_dash_Yfirst : List RTok :=
  [.digits 4 4, .lit dashC, .digits 1 2, .lit dashC, .digits 1 22]

/-- Regex `(\d{1,2}\-\d{1,2}\-\d{2})` (lines 248 and 259). -/
def pat_dash_Y2 : List RTok :=
  [.digits 1 2, .lit dashC, .digits 1 2, .lit dashC, .digits 2 2]

/-- The full month names of the line-270 regex, in alternation order. -/
def monthsFull : List (List Char) :=
  ["January".data, "February".data, "March".data, "April".data, "May".data,
   "June".data, "July".data, "August".data, "September".data,
   "October".data, "November".data, "December".data]

/-- The month abbreviations of the line-281 regex, in alternation order
(including the source's `Sept`, which `strptime` `%b` rejects). -/
def monthsAbbr : List (List Char) :=
  ["Jan".data, "Feb".data, "Mar".data, "Apr".data, "May".data, "Jun".data,
   "Jul".data, "Aug".data, "Sep".data, "Sept".data, "Oct".data, "Nov".data,
   "Dec".data]

/-- Regex `(Month)\s+\d{1,2},\s+\d{4}` (line 270). -/
def pat_monthFull : List RTok :=
  [.word monthsFull, .spaces, .digits 1 2, .lit commaC, .spaces, .digits 4 4]

/-- Regex `(Mon)\s+\d{1,2},\s+\d{4}` (line 281). -/
def pat_monthAbbr : List RTok :=
  [.word monthsAbbr, .spaces, .digits 1 2, .lit commaC, .spaces, .digits 4 4]

/-- `strptime` with format `%m.%d.%Y` (also `/` and `-` variants): the
`%m` and `%d` fields take at most two digits and `%Y` exactly four;
values are then validated by the `datetime` constructor. -/
def parse_mdY : List (List Char) → Option PyDateTime
  | [m, d, y] =>
    if m.length ≤ 2 ∧ d.length ≤ 2 ∧ y.length = 4 then
      mkValidDate (digitsToNat y) (digitsToNat m) (digitsToNat d)
    else none
  | _ => none

/-- `strptime` with format `%d.%m.%Y`. -/
def parse_dmY : List (List Char) → Option PyDateTime
  | [d, m, y] =>
    if d.length ≤ 2 ∧ m.length ≤ 2 ∧ y.length = 4 then
      mkValidDate (digitsToNat y) (digitsToNat m) (digitsToNat d)
    else none
  | _ => none

/-- `strptime` with format `%m.%d.%y` (also `/` and `-` variants). -/
def parse_mdy2 : List (List Char) → Option PyDateTime
  | [m, d, y] =>
    if m.length ≤ 2 ∧ d.length ≤ 2 ∧ y.length = 2 then
      mkValidDate (expandY2 (digitsToNat y)) (digitsToNat m) (digitsToNat d)
    else none
  | _ => none

/-- `strptime` with format `%d-%m-%y`. -/
def parse_dmy2 : List (List Char) → Option PyDateTime
  | [d, m, y] =>
    if d.length ≤ 2 ∧ m.length ≤ 2 ∧ y.length = 2 then
      mkValidDate (expandY2 (digitsToNat y)) (digitsToNat m) (digitsToNat d)
    else none
  | _ => none

/-- `strptime` with format `%Y/%m/%d` (also the `-` variant). -/
def parse_Ymd : List (List Char) → Option PyDateTime
  | [y, m, d] =>
    if y.length = 4 ∧ m.length ≤ 2 ∧ d.length ≤ 2 then
      mkValidDate (digitsToNat y) (digitsToNat m) (digitsToNat d)
    else none
  | _ => none

/-- `%B` month-name resolution (full names only). -/
def monthNumFull (w : List Char) : Option Nat :=
  (monthsFull.indexesOf w).head?.map Nat.succ

/-- `%b` month-name resolution: the twelve three-letter names; the
regex-matched `Sept` has no entry and parsing it fails. -/
def monthNumAbbr (w : List Char) : Option Nat :=
  (["Jan".data, "Feb".data, "Mar".data, "Apr".data, "May".data, "Jun".data,
    "Jul".data, "Aug".data, "Sep".data, "Oct".data, "Nov".data,
    "Dec".data].indexesOf w).head?.map Nat.succ

/-- `strptime` with format `%B %d, %Y`. -/
def parse_BdY : List (List Char) → Option PyDateTime
  | [w, d, y] =>
    match monthNumFull w with
    | some m => if d.length ≤ 2 ∧ y.length = 4 then
        mkValidDate (digitsToNat y) m (digitsToNat d) else none
    | none => none
  | _ => none

/-- `strptime` with format `%b %d, %Y`. -/
def parse_bdY : List (List Char) → Option PyDateTime
  | [w, d, y] =>
    match monthNumAbbr w with
    | some m => if d.length ≤ 2 ∧ y.length = 4 then
        mkValidDate (digitsToNat y) m (digitsToNat d) else none
    | none => none
  | _ => none

/-- One pattern step of `Utils.extract_date`: `re.search` the regex and,
on a match, `strptime` the matched text; a parse failure is `pass`ed
over exactly like a missing match. -/
def tryDatePattern (toks : List RTok)
    (parse : List (List Char) → Option PyDateTime) (text : List Char) :
    Option PyDateTime :=
  match reSearch toks text with
  | some (gs, _) => parse gs
  | none => none

/-- `Utils.extract_date` (utils.py lines 168-291), transliterated
pattern by pattern in source order. -/
def extract_date (text : List Char) : Option PyDateTime :=
  match tryDatePattern pat_dot_Y4 parse_mdY text with
  | some d => some d
  | none =>
  match tryDatePattern pat_dot_Y4 parse_dmY text with
  | some d => some d
  | none =>
  match tryDatePattern pat_dot_Y2 parse_mdy2 text with
  | some d => some d
  | none =>
  match tryDatePattern pat_slash_Yfirst parse_Ymd text with
  | some d => some d
  | none =>
  match tryDatePattern pat_slash_Y2 parse_mdy2 text with
  | some d => some d
  | none =>
  match tryDatePattern pat_dash_Yfirst parse_Ymd text with
  | some d => some d
  | none =>
  match tryDatePattern pat_dash_Y2 parse_mdy2 text with
  | some d => some d
  | none =>
  match tryDatePattern pat_dash_Y2 parse_dmy2 text with
  | some d => some d
  | none =>
  match tryDatePattern pat_monthFull parse_BdY text with
  | some d => some d
  | none =>
  match tryDatePattern pat_monthAbbr parse_bdY text with
  | some d => some d
  | none => none

/-- Modelled from the spec wording: the fixed ordered list of
regex/format pairs of §4.2 — MM.DD.YYYY, DD.MM.YYYY, MM.DD.YY,
YYYY/MM/DD, MM/DD/YY, YYYY-MM-DD, MM-DD-YY, DD-MM-YY, Month DD, YYYY,
Mon DD, YYYY. -/
def dateExtractorPatterns :
    List (List RTok × (List (List Char) → Option PyDateTime)) :=
  [(pat_dot_Y4, parse_mdY), (pat_dot_Y4, parse_dmY), (pat_dot_Y2, parse_mdy2),
   (pat_slash_Yfirst, parse_Ymd), (pat_slash_Y2, parse_mdy2),
   (pat_dash_Yfirst, parse_Ymd), (pat_dash_Y2, parse_mdy2),
   (pat_dash_Y2, parse_dmy2), (pat_monthFull, parse_BdY),
   (pat_monthAbbr, parse_bdY)]

/-- Modelled from the spec wording: return the result of the first
pattern of the ordered list that both matches and parses as a valid
calendar date, null if none succeed. -/
def firstMatchingDate :
    List (List RTok × (List (List Char) → Option PyDateTime)) → List Char →
    Option PyDateTime
  | [], _ => none
  | p :: ps, text =>
    match tryDatePattern p.1 p.2 text with
    | some d => some d
    | none => firstMatchingDate ps text

/-- The spec's DateExtractor contract as one function. -/
def dateExtractorSpec (text : List Char) : Option PyDateTime :=
  firstMatchingDate dateExtractorPatterns text

/-! ## Timestamp handling for events

`EventFetcher.process_event` parses the schedule API's UTC timestamp
with `datetime.strptime(date_no_z, '%Y-%m-%dT%H:%M')` and converts it to
US Eastern time.  The conversion below implements the post-2007 US
daylight-saving rule that `pytz`'s `America/New_York` applies to the
event dates this system processes. -/

/-- The character `T`. -/
def TC : Char := Char.ofNat 84

/-- The character `:`. -/
def colonC : Char := Char.ofNat 58

/-- The regex `strptime` compiles for `%Y-%m-%dT%H:%M`: four year
digits, 1-2 digits for the other fields. -/
def pat_isoT : List RTok :=
  [.digits 4 4, .lit dashC, .digits 1 2, .lit dashC, .digits 1 2,
   .lit TC, .digits 1 2, .lit colonC, .digits 1 2]

/-- `datetime.strptime(s, '%Y-%m-%dT%H:%M')`: the pattern must consume
the whole string and the fields must form a valid timestamp. -/
def strptime_isoT (s : List Char) : Option PyDateTime :=
  match matchToks (pat_isoT.length + 1) none pat_isoT s with
  | some (gs, n) =>
    if n = s.length then
      match gs with
      | [y, m, d, h, mi] =>
        if h.length ≤ 2 ∧ mi.length ≤ 2 ∧
            digitsToNat h ≤ 23 ∧ digitsToNat mi ≤ 59 then
          match mkValidDate (digitsToNat y) (digitsToNat m) (digitsToNat d) with
          | some dt => some { dt with hour := digitsToNat h, minute := digitsToNat mi }
          | none => none
        else none
      | _ => none
    else none
  | none => none

/-- Days since 0000-03-01 of a civil date (valid for years ≥ 1). -/
def daysFromCivil (y m d : Nat) : Nat :=
  let y2 := if m ≤ 2 then y - 1 else y
  let era := y2 / 400
  let yoe := y2 % 400
  let mp := (m + 9) % 12
  let doy := (153 * mp + 2) / 5 + (d - 1)
  let doe := yoe * 365 + yoe / 4 - yoe / 100 + doy
  era * 146097 + doe

/-- Civil date from days since 0000-03-01. -/
def civilFromDays (z : Nat) : Nat × Nat × Nat :=
  let era := z / 146097
  let doe := z % 146097
  let yoe := (doe - doe / 1460 + doe / 36524 - doe / 146096) / 365
  let y := yoe + era * 400
  let doy := doe - (365 * yoe + yoe / 4 - yoe / 100)
  let mp := (5 * doy + 2) / 153
  let d := doy - (153 * mp + 2) / 5 + 1
  let m := if mp < 10 then mp + 3 else mp - 9
  (if m ≤ 2 then y + 1 else y, m, d)

/-- Weekday with Sunday = 0 (day 0, 0000-03-01, is a Wednesday). -/
def weekdaySun0 (z : Nat) : Nat :=
  (z + 3) % 7

/-- Day of month of the second Sunday of March. -/
def secondSundayMarch (y : Nat) : Nat :=
  8 + (7 - weekdaySun0 (daysFromCivil y 3 8)) % 7

/-- Day of month of the first Sunday of November. -/
def firstSundayNov (y : Nat) : Nat :=
  1 + (7 - weekdaySun0 (daysFromCivil y 11 1)) % 7

/-- Whether a UTC instant falls in US daylight-saving time (post-2007
rule: from 7:00 UTC on the second Sunday of March to 6:00 UTC on the
first Sunday of November). -/
def inUsDst (y m d h : Nat) : Bool :=
  let sd := secondSundayMarch y
  let nd := firstSundayNov y
  ((3 < m) || (m == 3 && (sd < d || (d == sd && 7 ≤ h)))) &&
  ((m < 11) || (m == 11 && (d < nd || (d == nd && h < 6))))

/-- `pytz.utc.localize(t).astimezone(pytz.timezone('America/New_York'))`
for the post-2007 dates this pipeline handles. -/
def nyTimeFromUtc (t : PyDateTime) : PyDateTime :=
  let offH := if inUsDst t.year t.month t.day t.hour then 4 else 5
  let total := daysFromCivil t.year t.month t.day * 1440 + t.hour * 60 + t.minute
  let total2 := total - offH * 60
  let c := civilFromDays (total2 / 1440)
  { year := c.1, month := c.2.1, day := c.2.2,
    hour := total2 % 1440 / 60, minute := total2 % 1440 % 60 }

/-! ## EventCorrelationService (`src/yt_dlp_async/e_events.py` and the
earlier revision `src/yt-dlp-async/e_events.py`) -/

/-- One entry of `competitions[0].competitors`: `homeAway` read with
`.get` (missing gives None) and the team abbreviation read with
`team['team']['abbreviation']` (a missing key raises KeyError, modelled
as `none`). -/
structure PyCompetitor where
  homeAway : Option String
  teamAbbrev : Option String
  deriving Repr, DecidableEq

/-- One entry of `competitions`. -/
structure PyCompetition where
  competitors : Option (List PyCompetitor)
  deriving Repr, DecidableEq

/-- A schedule API event as `process_event` reads it; `none` models a
missing JSON key. -/
structure PyEvent where
  id : Option String
  date : Option String
  shortName : Option String
  seasonType : Option Int
  competitions : Option (List PyCompetition)
  deriving Repr, DecidableEq

/-- One row of the events DataFrame handed to the `e_events` insert. -/
structure EventRow where
  event_id : String
  ny_time : PyDateTime
  season_type : Int
  short_name : String
  home_team : String
  away_team : String
  home_team_normalized : String
  away_team_normalized : String
  deriving Repr, DecidableEq

/-- Python truthiness of an optional string (None and "" are falsy). -/
def truthyStr (o : Option String) : Bool :=
  !(o.getD "").isEmpty

/-- Python truthiness of an optional integer (None and 0 are falsy). -/
def truthyInt (o : Option Int) : Bool :=
  o.getD 0 != 0

/-- `next((team['team']['abbreviation'] for team in competitors if
team.get('homeAway') == side), None)` (e_events.py lines 86-88): the
first competitor on the given side, whose abbreviation access may raise
KeyError. -/
def findSideAbbrev : List PyCompetitor → String → Except PyErr (Option String)
  | [], _ => .ok none
  | c :: rest, side =>
    if c.homeAway == some side then
      match c.teamAbbrev with
      | some a => .ok (some a)
      | none => .error (.keyError "abbreviation")
    else findSideAbbrev rest side

/-- Lines 86-88 of `src/yt_dlp_async/e_events.py` (identically lines
49-51 of the earlier revision): `event.get('competitions', [{}])[0]`
raises IndexError when `competitions` is present but empty; the default
`[{}]` yields no competitors. -/
def extractSides (ev : PyEvent) : Except PyErr (Option String × Option String) :=
  match ev.competitions.getD [{ competitors := none }] with
  | [] => .error (.indexError "list index out of range")
  | comp0 :: _ =>
    let cs := comp0.competitors.getD []
    match findSideAbbrev cs "home" with
    | .error e => .error e
    | .ok home =>
      match findSideAbbrev cs "away" with
      | .error e => .error e
      | .ok away => .ok (home, away)

/-- Python `str(x)` over an optional string: `str(None)` is `"None"`. -/
def pyStr (o : Option String) : String :=
  o.getD "None"

/-- Python `str.rstrip('Z')`. -/
def rstripZ (s : List Char) : List Char :=
  (s.reverse.dropWhile (fun c => c == Char.ofNat 90)).reverse

/-- `EventFetcher.process_event` of the current revision
(`src/yt_dlp_async/e_events.py` lines 70-104).  The body requires all
six extracted values truthy (`all([...])`, line 90) — with no
season-type comparison — normalizes the teams through `extract_teams`
on an "away @ home" string (line 95), parses the UTC timestamp (a
ValueError propagates, since line 102 catches KeyError only) and
converts it to Eastern time. -/
def process_event (ev : PyEvent) : Except PyErr (Option EventRow) :=
  match extractSides ev with
  | .error (.keyError k) =>
    let _ := k
    .ok none
  | .error e => .error e
  | .ok (home, away) =>
    if !(truthyStr ev.id && truthyStr ev.date && truthyStr ev.shortName &&
        truthyInt ev.seasonType && truthyStr home && truthyStr away) then
      .ok none
    else
      let teams := extract_teams (pyStr away ++ " @ " ++ pyStr home)
      match strptime_isoT (rstripZ (ev.date.getD "").data) with
      | none => .error (.valueError "time data does not match format")
      | some utc =>
        .ok (some
          { event_id := ev.id.getD "", ny_time := nyTimeFromUtc utc,
            season_type := ev.seasonType.getD 0,
            short_name := ev.shortName.getD "",
            home_team := pyStr home, away_team := pyStr away,
            home_team_normalized := teams.1,
            away_team_normalized := teams.2 })

/-- `EventFetcher.process_event` of the earlier revision
(`src/yt-dlp-async/e_events.py` lines 43-61): no `try`/`except`, teams
normalized before the filter, and the filter additionally requires
`season_type > 1`. -/
def process_event_legacy (ev : PyEvent) : Except PyErr (Option EventRow) :=
  match extractSides ev with
  | .error e => .error e
  | .ok (home, away) =>
    let teams := extract_teams (pyStr away ++ " @ " ++ pyStr home)
    if truthyStr ev.id && truthyStr ev.date && truthyStr ev.shortName &&
        truthyInt ev.seasonType && decide (1 < ev.seasonType.getD 0) then
      match strptime_isoT (rstripZ (ev.date.getD "").data) with
      | none => .error (.valueError "time data does not match format")
      | some utc =>
        .ok (some
          { event_id := ev.id.getD "", ny_time := nyTimeFromUtc utc,
            season_type := ev.seasonType.getD 0,
            short_name := ev.shortName.getD "",
            home_team := pyStr home, away_team := pyStr away,
            home_team_normalized := teams.1,
            away_team_normalized := teams.2 })
    else .ok none

/-- The season-type-1 regular event used to settle C8: all required
fields present, two well-formed competitors. -/
def eventType1 : PyEvent :=
  { id := some "401", date := some "2021-05-01T17:05Z",
    shortName := some "BOS @ NYY", seasonType := some 1,
    competitions := some
      [{ competitors := some
          [{ homeAway := some "home", teamAbbrev := some "NYY" },
           { homeAway := some "away", teamAbbrev := some "BOS" }] }] }

/-! ## FileAcquisitionPipeline (`src/yt_dlp_async/video_download.py`) -/

/-- The opening brace. -/
def lbraceC : Char := Char.ofNat 123

/-- The closing brace. -/
def rbraceC : Char := Char.ofNat 125

/-- Python `str.strip()` (whitespace from both ends). -/
def stripWs (s : List Char) : List Char :=
  ((s.dropWhile isSpaceA).reverse.dropWhile isSpaceA).reverse

/-- Worker for `pyReplaceAll`; `fuel` always exceeds the text length. -/
def replaceAllGo (old : List Char) : Nat → List Char → List Char
  | 0, s => s
  | fuel + 1, s =>
    if !old.isEmpty && startsWithL old s then
      replaceAllGo old fuel (s.drop old.length)
    else
      match s with
      | [] => []
      | c :: rest => c :: replaceAllGo old fuel rest

/-- Python `s.replace(old, '')` for nonempty `old`, as used by
`Fetcher.extract_date` to delete the matched date from the text. -/
def pyReplaceAll (s old : List Char) : List Char :=
  replaceAllGo old (s.length + 1) s

/-- The line-290 regex `(\b\w+\s\d{1,2},\s\d{4}\b)`: any word, one
whitespace, day, comma, one whitespace, four-digit year, inside word
boundaries. -/
def pat_wordDate : List RTok :=
  [.bound, .wordRun, .spaceOne, .digits 1 2, .lit commaC, .spaceOne,
   .digits 4 4, .bound]

/-- Case-insensitive `%B` month-name resolution (as `strptime` matches
month names case-insensitively). -/
def monthNumFullCI (w : List Char) : Option Nat :=
  ((monthsFull.map (fun m => m.map Char.toLower)).indexesOf
      (w.map Char.toLower)).head?.map Nat.succ

/-- `strptime` with format `%B %d, %Y` applied to the word-date match:
a non-month word fails. -/
def parse_BdY_ci : List (List Char) → Option PyDateTime
  | [w, d, y] =>
    match monthNumFullCI w with
    | some m => if d.length ≤ 2 ∧ y.length = 4 then
        mkValidDate (digitsToNat y) m (digitsToNat d) else none
    | none => none
  | _ => none

/-- One pattern step of `Fetcher.extract_date` (video_download.py lines
254-296): on a regex match the matched text is removed from the string
(stripped) and `strptime` runs with no surrounding try, so an invalid
date raises ValueError instead of falling through. -/
def vdDateStep (toks : List RTok)
    (parse : List (List Char) → Option PyDateTime) (text : List Char) :
    Option (Except PyErr (Option PyDateTime × List Char)) :=
  match reSearch toks text with
  | some (gs, m0) =>
    match parse gs with
    | some d => some (.ok (some d, stripWs (pyReplaceAll text m0)))
    | none => some (.error (.valueError "time data does not match format"))
  | none => none

/-- `Fetcher.extract_date` (video_download.py lines 244-296): six
patterns, `DD.MM.YYYY` first, each step returning on a match (raising on
an unparsable match), `(None, text)` when none match. -/
def vd_extract_date (text : List Char) :
    Except PyErr (Option PyDateTime × List Char) :=
  match vdDateStep pat_dot_Y4 parse_dmY text with
  | some r => r
  | none =>
  match vdDateStep pat_dot_Y4 parse_mdY text with
  | some r => r
  | none =>
  match vdDateStep pat_dot_Y2 parse_mdy2 text with
  | some r => r
  | none =>
  match vdDateStep pat_slash_Y2 parse_mdy2 text with
  | some r => r
  | none =>
  match vdDateStep pat_dash_Y2 parse_mdy2 text with
  | some r => r
  | none =>
  match vdDateStep pat_wordDate parse_BdY_ci text with
  | some r => r
  | none => .ok (none, text)

/-- `re.search` applied to a possibly-missing field: searching `None`
raises TypeError. -/
def vd_extract_date_opt : Option String →
    Except PyErr (Option PyDateTime × List Char)
  | none => .error (.typeError "expected string or bytes-like object")
  | some t => vd_extract_date t.data

/-- The fields `determine_path_and_name` reads from the downloader's
info dict (video_download.py lines 181-193); `none` models a missing
key (default `None`). -/
structure InfoDict where
  title : Option String
  description : Option String
  id : Option String
  asr : Option String
  language : Option String
  acodec : Option String
  format_id : Option String
  quality : Option String
  format_note : Option String
  dynamic_range : Option String
  duration : Nat
  deriving Repr, DecidableEq

/-- `Fetcher.determine_path_and_name` (video_download.py lines 173-242).
When a date is found (in the title or the description), line 212 calls
`self.run_event_fetcher(path_date)`, but the `Fetcher` class of this
revision defines no such method, so AttributeError is raised.  When no
date is found, the team lookups of lines 217-226 compare against the
capitalized sentinel `'Unknown'`, which `extract_teams` (returning
lowercase canonical codes or `'unknown'`) never produces; whichever way
those branches resolve, control reaches line 229,
`DatabaseOperations.get_e_events_event_id(...)`, and `DatabaseOperations`
of this revision defines no such attribute, so AttributeError is raised
there.  The path/filename construction of lines 234-242 is therefore
unreachable. -/
def determine_path_and_name (info : InfoDict) : Except PyErr (String × String) :=
  match vd_extract_date_opt info.title with
  | .error e => .error e
  | .ok (some _, _) => .error (.attributeError "run_event_fetcher")
  | .ok (none, title2) =>
    match vd_extract_date_opt info.description with
    | .error e => .error e
    | .ok (some _, _) => .error (.attributeError "run_event_fetcher")
    | .ok (none, desc2) =>
      let teams1 := extract_teams (String.mk title2)
      let teams :=
        if teams1.1 == "Unknown" && teams1.2 == "Unknown" then
          extract_teams (String.mk desc2)
        else teams1
      let _ := teams
      .error (.attributeError "get_e_events_event_id")

/-- Whether an `Except` result is a normal return. -/
def isOkE {α : Type} (r : Except PyErr α) : Bool :=
  match r with
  | .ok _ => true
  | .error _ => false

/-- `Fetcher.format_duration` (video_download.py lines 298-316):
`HnnMnnSnn` with zero-padded fields. -/
def format_duration (duration : Nat) : String :=
  let pad2 := fun (n : Nat) => if n < 10 then "0" ++ toString n else toString n
  "H" ++ pad2 (duration / 3600) ++ "M" ++ pad2 (duration % 3600 / 60) ++
    "S" ++ pad2 (duration % 60)

/-- Lines 235-237: the optional `{e-...}` token. -/
def e_token : Option String → String
  | some e => String.mk (lbraceC :: ("e-" ++ e).data ++ [rbraceC])
  | none => ""

/-- The line-241 f-string: the file name built from away/home codes,
formatted date, language, duration, sample rate, dynamic range, codec,
quality, format note, the `{fid-...}` token, the optional `{e-...}`
token, and the `{yt-...}` token. -/
def file_name_template (away home fdate lang dur asr drc acodec quality
    note fid : String) (eId : Option String) (videoId : String) : String :=
  away ++ " at " ++ home ++ " - " ++ fdate ++ " - [" ++ lang ++ "][" ++
    dur ++ "][" ++ asr ++ "][" ++ drc ++ "][" ++ acodec ++ "][" ++
    quality ++ "][" ++ note ++ "]" ++
    String.mk (lbraceC :: ("fid-" ++ fid).data ++ [rbraceC]) ++
    e_token eId ++
    String.mk (lbraceC :: ("yt-" ++ videoId).data ++ [rbraceC])

/-- The non-token part of the constructed file name, prefixed by the
enclosing path `p`. -/
def fileNamePre (p away home fdate lang dur asr drc acodec quality
    note : String) : String :=
  p ++ away ++ " at " ++ home ++ " - " ++ fdate ++ " - [" ++ lang ++
    "][" ++ dur ++ "][" ++ asr ++ "][" ++ drc ++ "][" ++ acodec ++ "][" ++
    quality ++ "][" ++ note ++ "]"

/-! ## `Utils.extract_video_info_filepath` (`src/yt_dlp_async/utils.py`, lines 411-434) -/

/-- Python `s.split(c)` for a single-character separator. -/
def splitChar (c : Char) : List Char → List (List Char)
  | [] => [[]]
  | x :: rest =>
    if x == c then [] :: splitChar c rest
    else
      match splitChar c rest with
      | [] => [[x]]
      | seg :: segs => (x :: seg) :: segs

/-- The prefix of `s` before the first occurrence of `sep` (all of `s`
when `sep` does not occur).  For a part that starts with `sep`,
`part.split(sep)[1]` equals `takeUntilSub sep (part.drop sep.length)`. -/
def takeUntilSub (sep : List Char) : List Char → List Char
  | [] => []
  | x :: rest =>
    if startsWithL sep (x :: rest) then []
    else x :: takeUntilSub sep rest

/-- Python truthiness of the loop's optional strings. -/
def truthyChars : Option (List Char) → Bool
  | some s => !s.isEmpty
  | none => false

/-- The scan of utils.py lines 427-433 over the `'{'`-separated parts:
a part starting with `yt-` (resp. `fid-`) updates `video_id` (resp.
`a_format_id`) with `part.split(tok)[1].split('}')[0]`, and the loop
stops early once both are truthy. -/
def extract_video_info_loop : List (List Char) → Option (List Char) →
    Option (List Char) → Option (List Char) × Option (List Char)
  | [], v, a => (v, a)
  | p :: rest, v, a =>
    let v2 := if startsWithL "yt-".data p then
        some ((takeUntilSub "yt-".data (p.drop 3)).takeWhile
          (fun c => !(c == rbraceC)))
      else v
    let a2 := if startsWithL "fid-".data p then
        some ((takeUntilSub "fid-".data (p.drop 4)).takeWhile
          (fun c => !(c == rbraceC)))
      else a
    if truthyChars v2 && truthyChars a2 then (v2, a2)
    else extract_video_info_loop rest v2 a2

/-- `Utils.extract_video_info_filepath` (utils.py lines 411-434). -/
def extract_video_info_filepath (filepath : String) :
    Option String × Option String :=
  let r := extract_video_info_loop (splitChar lbraceC filepath.data) none none
  (r.1.map String.mk, r.2.map String.mk)

/-! ## Theorems -/

/-- Helper: if `d` is the first delimiter of `ds` present in `txt` and the
candidate analysis at `d` is decisive, the delimiter scan returns that
decisive outcome. -/
theorem scanDelimiters_decisive (ds : List (List Char)) (txt d : List Char)
    (r : String × String)
    (hf : ds.find? (fun e => containsSub txt e) = some d)
    (hr : decisiveOutcome
            (findTeamCandidates ((splitSub d txt).getD 0 []))
            (findTeamCandidates ((splitSub d txt).getD 1 [])) = some r) :
    scanDelimiters ds txt = r := by
  induction ds with
  | nil => simp [List.find?] at hf
  | cons e rest ih =>
    by_cases hce : containsSub txt e
    · rw [List.find?_cons_of_pos rest hce] at hf
      have hed : e = d := Option.some.inj hf
      subst hed
      unfold scanDelimiters
      rw [if_pos hce]
      unfold decisiveOutcome at hr
      cases hres : resolveCandidates
          (findTeamCandidates ((splitSub e txt).getD 0 []))
          (findTeamCandidates ((splitSub e txt).getD 1 [])) with
      | some r2 =>
        rw [hres] at hr
        simp only [Option.some.injEq] at hr
        simp only [hres, hr]
      | none =>
        rw [hres] at hr
        simp only [hres]
        by_cases hml : (findTeamCandidates ((splitSub e txt).getD 0 [])).length > 1 ∧
            (findTeamCandidates ((splitSub e txt).getD 1 [])).length > 1
        · rw [if_pos hml] at hr ⊢
          exact (Option.some.inj hr).symm ▸ rfl
        · rw [if_neg hml] at hr
          exact absurd hr (by simp)
    · rw [List.find?_cons_of_neg rest (by simp [hce])] at hf
      unfold scanDelimiters
      rw [if_neg hce]
      exact ih hf

/-- Helper: a decisive outcome at the first found delimiter determines
`extract_teams`. -/
theorem extract_teams_of_decisive (t : String) (d : List Char) (r : String × String)
    (hf : firstFoundDelimiter t = some d)
    (hr : decisiveOutcome (sideCandidates t d).1 (sideCandidates t d).2 = some r) :
    extract_teams t = r :=
  scanDelimiters_decisive delimiterList (t.data.map Char.toLower) d r hf hr

/-- Helper: erasing one element from a list of length at least two leaves
a nonempty list. -/
theorem length_erase_pos {l : List String} {x : String} (h : l.length > 1) :
    (l.erase x).length ≥ 1 := by
  rw [List.length_erase]
  split <;> omega

/-- C5. For any text whose first found delimiter is `d`: if each side has
exactly one candidate the pair is returned; if the away side has one
candidate and the home side several, the known code is erased from the
home set and the pair is returned when exactly one candidate remains,
otherwise the known side is paired with "unknown"; symmetrically when
the home side is the known one.  Moreover
`extract_teams "Red Sox at Yankees" = ("nya", "bos")` and
`extract_teams "Unknown Team at Yankees" = ("nya", "unknown")`. -/
theorem extract_teams_resolution_policy :
    (∀ t d, firstFoundDelimiter t = some d →
      (((sideCandidates t d).1.length = 1 ∧ (sideCandidates t d).2.length = 1) →
        extract_teams t = (firstOf (sideCandidates t d).2, firstOf (sideCandidates t d).1)) ∧
      (((sideCandidates t d).1.length = 1 ∧ (sideCandidates t d).2.length > 1) →
        extract_teams t =
          (if ((sideCandidates t d).2.erase (firstOf (sideCandidates t d).1)).length = 1 then
            (firstOf ((sideCandidates t d).2.erase (firstOf (sideCandidates t d).1)),
             firstOf (sideCandidates t d).1)
          else ("unknown", firstOf (sideCandidates t d).1))) ∧
      (((sideCandidates t d).2.length = 1 ∧ (sideCandidates t d).1.length > 1) →
        extract_teams t =
          (if ((sideCandidates t d).1.erase (firstOf (sideCandidates t d).2)).length = 1 then
            (firstOf (sideCandidates t d).2,
             firstOf ((sideCandidates t d).1.erase (firstOf (sideCandidates t d).2)))
          else (firstOf (sideCandidates t d).2, "unknown")))) ∧
    extract_teams "Red Sox at Yankees" = ("nya", "bos") ∧
    extract_teams "Unknown Team at Yankees" = ("nya", "unknown") := by
  refine ⟨fun t d hf => ?_, by decide, by decide⟩
  set a := (sideCandidates t d).1 with ha
  set h := (sideCandidates t d).2 with hh
  refine ⟨fun hc => ?_, fun hc => ?_, fun hc => ?_⟩
  · apply extract_teams_of_decisive t d _ hf
    rw [← ha, ← hh]
    unfold decisiveOutcome resolveCandidates
    rw [if_pos ⟨hc.1, hc.2⟩]
  · have hrest := length_erase_pos (l := h) (x := firstOf a) hc.2
    apply extract_teams_of_decisive t d _ hf
    rw [← ha, ← hh]
    unfold decisiveOutcome resolveCandidates
    rw [if_neg (by omega), if_neg (by omega), if_neg (by omega),
       if_pos ⟨hc.1, hc.2⟩]
    by_cases hone : (h.erase (firstOf a)).length = 1
    · rw [if_pos hone, if_pos hone]
    · rw [if_neg hone, if_neg hone, if_pos (by omega)]
  · have hrest := length_erase_pos (l := a) (x := firstOf h) hc.2
    apply extract_teams_of_decisive t d _ hf
    rw [← ha, ← hh]
    unfold decisiveOutcome resolveCandidates
    rw [if_neg (by omega), if_neg (by omega), if_neg (by omega),
       if_neg (by omega), if_pos ⟨hc.1, hc.2⟩]
    by_cases hone : (a.erase (firstOf h)).length = 1
    · rw [if_pos hone, if_pos hone]
    · rw [if_neg hone, if_neg hone, if_pos (by omega)]

/-- Witness for C5: the policy theorem applied to the concrete matchup
"Dodgers at Giants", whose sides resolve uniquely. -/
theorem extract_teams_resolution_policy_witness :
    extract_teams "Dodgers at Giants" = ("sfn", "lan") := by
  have hp := (extract_teams_resolution_policy.1 "Dodgers at Giants" (" at ".data)
      (by decide)).1 (by decide)
  exact hp.trans (by decide)

/-- C6 counterexample. In `"x at y at z vs yankees"` the first delimiter
found is `" at "`, and under the claimed no-backtracking semantics the
result would be `("unknown", "unknown")`; the source instead falls
through to `" vs "` and returns `("nya", "unknown")`. -/
theorem extract_teams_no_backtrack_counterexample :
    firstFoundDelimiter "x at y at z vs yankees" = some " at ".data ∧
    claimNoBacktrack "x at y at z vs yankees" = ("unknown", "unknown") ∧
    extract_teams "x at y at z vs yankees" = ("nya", "unknown") :=
  ⟨by decide, by decide, by decide⟩

/-- C6 as amended. Delimiters are tried in the fixed order, and once a
found delimiter reaches a decisive outcome (a branch of the resolution
chain fires, or both sides have several candidates) no later delimiter
is tried; but a found delimiter whose candidate analysis is indecisive
(one side without candidates and the other without candidates or with
several) falls through to the remaining delimiters. -/
theorem extract_teams_first_delimiter_decisive :
    (∀ t d r, firstFoundDelimiter t = some d →
      decisiveOutcome (sideCandidates t d).1 (sideCandidates t d).2 = some r →
      extract_teams t = r) ∧
    (∀ txt d rest, containsSub txt d = true →
      decisiveOutcome
        (findTeamCandidates ((splitSub d txt).getD 0 []))
        (findTeamCandidates ((splitSub d txt).getD 1 [])) = none →
      scanDelimiters (d :: rest) txt = scanDelimiters rest txt) := by
  constructor
  · exact fun t d r hf hr => extract_teams_of_decisive t d r hf hr
  · intro txt d rest hc hr
    unfold decisiveOutcome at hr
    simp only [scanDelimiters]
    rw [if_pos hc]
    cases hres : resolveCandidates
        (findTeamCandidates ((splitSub d txt).getD 0 []))
        (findTeamCandidates ((splitSub d txt).getD 1 [])) with
    | some r2 => rw [hres] at hr; exact absurd hr (by simp)
    | none =>
      rw [hres] at hr
      simp only [hres]
      by_cases hml : (findTeamCandidates ((splitSub d txt).getD 0 [])).length > 1 ∧
          (findTeamCandidates ((splitSub d txt).getD 1 [])).length > 1
      · rw [if_pos hml] at hr; exact absurd hr (by simp)
      · rw [if_neg hml]

/-- Witness for amended C6: the decisive clause applied to
"cubs at mets", and the fall-through clause applied to the `" at "`
iteration of "x at y at z vs yankees". -/
theorem extract_teams_first_delimiter_decisive_witness :
    extract_teams "cubs at mets" = ("nyn", "chn") ∧
    scanDelimiters (" at ".data :: [" vs ".data]) "x at y at z vs yankees".data =
      scanDelimiters [" vs ".data] "x at y at z vs yankees".data := by
  constructor
  · exact extract_teams_first_delimiter_decisive.1 "cubs at mets" (" at ".data)
      ("nyn", "chn") (by decide) (by decide)
  · exact extract_teams_first_delimiter_decisive.2 "x at y at z vs yankees".data
      (" at ".data) [" vs ".data] (by decide) (by decide)

/-- Helper: the quarantine update on a cons cell. -/
theorem setFailed_cons (vids : List String) (r : String × Bool) (rest : VideosTable) :
    set_video_id_failed_metadata_true vids (r :: rest) =
      (if vids.contains r.1 then (r.1, true) else r) ::
        set_video_id_failed_metadata_true vids rest := rfl

/-- Helper: keys of a cons cell. -/
theorem tableKeys_cons (r : String × Bool) (rest : VideosTable) :
    tableKeys (r :: rest) = r.1 :: tableKeys rest := rfl

/-- Helper: flag lookup on a cons cell. -/
theorem lookupFlag_cons (k : String) (b : Bool) (rest : VideosTable) (v : String) :
    lookupFlag ((k, b) :: rest) v = if k == v then some b else lookupFlag rest v := rfl

/-- Helper: the selection pool on a cons cell. -/
theorem pool_cons (k : String) (b : Bool) (rest : VideosTable) :
    get_video_ids_without_metadata_pool ((k, b) :: rest) =
      if b == false then k :: get_video_ids_without_metadata_pool rest
      else get_video_ids_without_metadata_pool rest := by
  by_cases hb : (b == false) = true
  · have hb' : b = false := by simpa using hb
    simp [get_video_ids_without_metadata_pool, List.filter_cons, hb, hb']
  · have hb' : ¬b = false := by simpa using hb
    simp [get_video_ids_without_metadata_pool, List.filter_cons, hb, hb']

/-- Helper: the quarantine update sets the flag of every targeted
existing row. -/
theorem lookupFlag_setFailed_of_mem (t : VideosTable) (v : String) (vids : List String)
    (hv : vids.contains v = true) (hk : v ∈ tableKeys t) :
    lookupFlag (set_video_id_failed_metadata_true vids t) v = some true := by
  induction t with
  | nil => simp [tableKeys] at hk
  | cons r rest ih =>
    obtain ⟨k, b⟩ := r
    rw [setFailed_cons]
    by_cases hr : (k == v) = true
    · have hkv : k = v := by simpa using hr
      rw [if_pos (by simpa [hkv] using hv)]
      rw [lookupFlag_cons, if_pos hr]
    · have hk' : v ∈ tableKeys rest :=
        (List.mem_cons.mp (by rwa [tableKeys_cons] at hk)).resolve_left
          (fun hh => hr (by simp [hh]))
      by_cases hc : vids.contains k = true
      · rw [if_pos hc, lookupFlag_cons, if_neg hr]
        exact ih hk'
      · rw [if_neg hc, lookupFlag_cons, if_neg hr]
        exact ih hk'

/-- Helper: the quarantine update never lowers a flag that is already set. -/
theorem lookupFlag_setFailed_preserved (t : VideosTable) (v : String) (vids : List String)
    (h : lookupFlag t v = some true) :
    lookupFlag (set_video_id_failed_metadata_true vids t) v = some true := by
  induction t with
  | nil => simp [lookupFlag] at h
  | cons r rest ih =>
    obtain ⟨k, b⟩ := r
    rw [lookupFlag_cons] at h
    rw [setFailed_cons]
    by_cases hr : (k == v) = true
    · rw [if_pos hr] at h
      have hb : b = true := by simpa using h
      by_cases hc : vids.contains k = true
      · rw [if_pos hc, lookupFlag_cons, if_pos hr]
      · rw [if_neg hc, lookupFlag_cons, if_pos hr, hb]
    · rw [if_neg hr] at h
      by_cases hc : vids.contains k = true
      · rw [if_pos hc, lookupFlag_cons, if_neg hr]
        exact ih h
      · rw [if_neg hc, lookupFlag_cons, if_neg hr]
        exact ih h

/-- Helper: a lookup that succeeds in `t` succeeds unchanged in `t ++ l`. -/
theorem lookupFlag_append (t l : VideosTable) (v : String) (b : Bool)
    (h : lookupFlag t v = some b) : lookupFlag (t ++ l) v = some b := by
  induction t with
  | nil => simp [lookupFlag] at h
  | cons r rest ih =>
    simp only [lookupFlag] at h ⊢
    by_cases hr : (r.1 == v) = true
    · rwa [if_pos hr] at h ⊢
    · rw [if_neg hr] at h ⊢
      exact ih h

/-- Helper: insert-or-ignore never lowers a flag that is already set. -/
theorem lookupFlag_bulkInsert_preserved (vids : List String) (t : VideosTable) (v : String)
    (h : lookupFlag t v = some true) :
    lookupFlag (insert_video_ids_bulk vids t) v = some true := by
  induction vids generalizing t with
  | nil => exact h
  | cons w rest ih =>
    simp only [insert_video_ids_bulk, List.foldl_cons]
    apply ih
    unfold insertOrIgnoreRow
    by_cases hany : t.any (fun r => r.1 == w) = true
    · rwa [if_pos hany]
    · rw [if_neg hany]
      exact lookupFlag_append t [(w, false)] v true h

/-- Helper: the quarantine update leaves the key column unchanged. -/
theorem tableKeys_setFailed (vids : List String) (t : VideosTable) :
    tableKeys (set_video_id_failed_metadata_true vids t) = tableKeys t := by
  induction t with
  | nil => rfl
  | cons r rest ih =>
    simp only [set_video_id_failed_metadata_true, List.map_cons, tableKeys] at ih ⊢
    by_cases hc : vids.contains r.1 = true
    · rw [if_pos hc]; simpa using ih
    · rw [if_neg hc]; simpa using ih

/-- Helper: both table operations preserve distinctness of primary keys. -/
theorem keysNodup_applyOp (op : VideosOp) (t : VideosTable)
    (h : (tableKeys t).Nodup) : (tableKeys (applyVideosOp op t)).Nodup := by
  cases op with
  | setFailed vids =>
    simpa [applyVideosOp, tableKeys_setFailed] using h
  | bulkInsert vids =>
    simp only [applyVideosOp]
    induction vids generalizing t with
    | nil => exact h
    | cons w rest ih =>
      simp only [insert_video_ids_bulk, List.foldl_cons]
      apply ih
      unfold insertOrIgnoreRow
      by_cases hany : t.any (fun r => r.1 == w) = true
      · rwa [if_pos hany]
      · rw [if_neg hany]
        have hw : w ∉ tableKeys t := by
          intro hmem
          rcases List.mem_map.mp hmem with ⟨r, hr, hkey⟩
          exact hany (List.any_eq_true.mpr ⟨r, hr, by simp [hkey]⟩)
        have hkeys : tableKeys (t ++ [(w, false)]) = tableKeys t ++ [w] := by
          simp [tableKeys]
        rw [hkeys]
        refine List.Nodup.append h (List.nodup_singleton w) ?_
        intro x hx hx'
        rw [List.mem_singleton] at hx'
        exact hw (hx' ▸ hx)

/-- Helper: ids appearing in the selection pool are keys of the table. -/
theorem mem_keys_of_mem_pool (t : VideosTable) (v : String)
    (h : v ∈ get_video_ids_without_metadata_pool t) : v ∈ tableKeys t := by
  rcases List.mem_map.mp h with ⟨r, hr, hkey⟩
  exact List.mem_map.mpr ⟨r, List.mem_of_mem_filter hr, hkey⟩

/-- Helper: a key whose (unique) row is flagged never appears in the
selection pool. -/
theorem notMem_pool_of_flag (t : VideosTable) (v : String)
    (hn : (tableKeys t).Nodup) (h : lookupFlag t v = some true) :
    v ∉ get_video_ids_without_metadata_pool t := by
  induction t with
  | nil => simp [get_video_ids_without_metadata_pool]
  | cons r rest ih =>
    obtain ⟨k, b⟩ := r
    rw [tableKeys_cons] at hn
    have hsplit := List.nodup_cons.mp hn
    rw [lookupFlag_cons] at h
    rw [pool_cons]
    by_cases hr : (k == v) = true
    · rw [if_pos hr] at h
      have hb : b = true := by simpa using h
      rw [hb]
      simp only [show ((true : Bool) == false) = false from rfl, if_false]
      intro hmem
      have hkeys : v ∈ tableKeys rest := mem_keys_of_mem_pool rest v hmem
      exact hsplit.1 (by rwa [show k = v from by simpa using hr])
    · rw [if_neg hr] at h
      have tail := ih hsplit.2 h
      by_cases hflag : (b == false) = true
      · rw [if_pos hflag]
        intro hmem
        rcases List.mem_cons.mp hmem with hv | hv
        · exact hr (by simp [hv.symm])
        · exact tail hv
      · rw [if_neg hflag]
        exact tail

/-- Helper: flag truth and key distinctness survive any sequence of the
table operations the source performs. -/
theorem applyVideosOps_preserved (ops : List VideosOp) (t : VideosTable) (v : String)
    (hn : (tableKeys t).Nodup) (h : lookupFlag t v = some true) :
    (tableKeys (applyVideosOps ops t)).Nodup ∧
    lookupFlag (applyVideosOps ops t) v = some true := by
  induction ops generalizing t with
  | nil => exact ⟨hn, h⟩
  | cons op rest ih =>
    simp only [applyVideosOps, List.foldl_cons]
    apply ih
    · exact keysNodup_applyOp op t hn
    · cases op with
      | bulkInsert vids => exact lookupFlag_bulkInsert_preserved vids t v h
      | setFailed vids => exact lookupFlag_setFailed_preserved t v vids h

/-- C3. Quarantine is monotone: once `set_video_id_failed_metadata_true`
has flagged an existing id, then after any further sequence of the
table-writing operations of the source (bulk insert-or-ignore and
further quarantine updates) the flag is still `true` and the id is
absent from the candidate pool of the "IDs without metadata" selection;
no operation resets the flag to `false`. -/
theorem quarantine_monotonicity (t : VideosTable) (v : String) (vids : List String)
    (ops : List VideosOp) (hn : (tableKeys t).Nodup)
    (hv : vids.contains v = true) (hk : v ∈ tableKeys t) :
    lookupFlag (applyVideosOps ops (set_video_id_failed_metadata_true vids t)) v
      = some true ∧
    v ∉ get_video_ids_without_metadata_pool
      (applyVideosOps ops (set_video_id_failed_metadata_true vids t)) := by
  have h0 : lookupFlag (set_video_id_failed_metadata_true vids t) v = some true :=
    lookupFlag_setFailed_of_mem t v vids hv hk
  have hn0 : (tableKeys (set_video_id_failed_metadata_true vids t)).Nodup := by
    rwa [tableKeys_setFailed]
  have hmain := applyVideosOps_preserved ops _ v hn0 h0
  exact ⟨hmain.2, notMem_pool_of_flag _ v hmain.1 hmain.2⟩

/-- C2. Contrary to the claim, the shared quota-exceeded flag can never
be set: `fetch_video_metadata` raises UnboundLocalError at its guard
(line 84) before any HTTP request is issued, and the line-111 handler
for HTTP 403 `quotaExceeded` assigns a function-local name, so after any
sequence of worker passes — whatever responses the API would give,
including 403 `quotaExceeded` — the module-level `is_quota_exceeded`
stays `false` and every later pass with a nonempty id batch enters the
fetch path again. -/
theorem quota_exceeded_flag_never_set :
    (∀ flag resp ids, fetch_video_metadata flag resp ids =
      { result := .error (.unboundLocalError "isQuotaExceeded"),
        quotaFlagAfter := flag, httpIssued := false, quarantined := [] }) ∧
    (∀ batches, runRetrieveBatches false batches = false) := by
  have hfetch : ∀ (flag : Bool) (resp : ApiResponse) (ids : List String),
      fetch_video_metadata flag resp ids =
        { result := .error (.unboundLocalError "isQuotaExceeded"),
          quotaFlagAfter := flag, httpIssued := false, quarantined := [] } :=
    fun _ _ _ => rfl
  refine ⟨hfetch, ?_⟩
  have hiter : ∀ (ids : List String) (resp : ApiResponse),
      (worker_retrieve_iteration false ids resp).quotaFlagAfter = false := by
    intro ids resp
    unfold worker_retrieve_iteration
    rw [if_neg (by simp)]
    by_cases hids : ids.isEmpty = true
    · rw [if_pos hids]
    · rw [if_neg hids, hfetch]
  intro batches
  induction batches with
  | nil => rfl
  | cons b rest ih =>
    obtain ⟨ids, resp⟩ := b
    simp only [runRetrieveBatches]
    rw [hiter ids resp]
    exact ih

/-- C1. Contrary to the claim, a retrieval pass can never push records or
quarantine ids: `fetch_video_metadata` raises UnboundLocalError before
the request, and even on its (unreachable) success path the worker's
per-item loop would raise TypeError at line 216.  In particular, in the
claim's 50-requested / 47-returned scenario the worker pushes 0 records
and quarantines no id, instead of 47 records and 3 quarantined ids. -/
theorem metadata_batch_pushes_nothing :
    (∀ flag ids resp,
      (worker_retrieve_iteration flag ids resp).pushedRecords = 0 ∧
      (worker_retrieve_iteration flag ids resp).quarantined = []) ∧
    worker_retrieve_iteration false ((List.range 50).map vid)
        (.ok (((List.range 50).drop 3).map (fun i => { id := vid i }))) =
      { quotaFlagAfter := false, httpIssued := false, pushedRecords := 0,
        quarantined := [] } := by
  constructor
  · intro flag ids resp
    unfold worker_retrieve_iteration
    by_cases hf : flag = true
    · rw [if_pos hf]
      exact ⟨rfl, rfl⟩
    · rw [if_neg hf]
      by_cases hids : ids.isEmpty = true
      · rw [if_pos hids]
        exact ⟨rfl, rfl⟩
      · rw [if_neg hids]
        exact ⟨rfl, rfl⟩
  · rfl

/-- C9. `determine_path_and_name` never returns a path and file name:
every execution raises.  With a date in the title (or description) the
missing `run_event_fetcher` method raises AttributeError at line 212;
with no date found, the missing `get_e_events_event_id` attribute raises
AttributeError at line 229 (the capital-`'Unknown'` comparisons of lines
217-226 never match the lowercase sentinel `extract_teams` produces, so
they cannot divert the flow).  The claimed `{root}/{path_date}/` versus
`{root}/unknown_teams/{path_date}/` placement is never reached. -/
theorem determine_path_never_returns :
    (∀ info, isOkE (determine_path_and_name info) = false) ∧
    determine_path_and_name
      { title := some "Red Sox at Yankees 07.04.2021", description := some "",
        id := some "abc123def45", asr := some "44100", language := some "en",
        acodec := some "mp4a.40.2", format_id := some "140",
        quality := some "3.0", format_note := some "medium",
        dynamic_range := none, duration := 8130 } =
      .error (.attributeError "run_event_fetcher") ∧
    determine_path_and_name
      { title := some "highlights reel", description := some "no teams here",
        id := some "abc123def45", asr := none, language := none,
        acodec := none, format_id := none, quality := none,
        format_note := none, dynamic_range := none, duration := 0 } =
      .error (.attributeError "get_e_events_event_id") := by
  refine ⟨?_, rfl, rfl⟩
  intro info
  unfold determine_path_and_name
  cases h1 : vd_extract_date_opt info.title with
  | error e => rfl
  | ok pr =>
    obtain ⟨od, t2⟩ := pr
    cases od with
    | some d => rfl
    | none =>
      cases h2 : vd_extract_date_opt info.description with
      | error e => rfl
      | ok pr2 =>
        obtain ⟨od2, d2⟩ := pr2
        cases od2 with
        | some d => rfl
        | none => rfl

/-- C10 counterexample. A file name constructed by the line-241 template
for the video id `"ayt-b"` (a legal id: letters, digits, `-`) and format
id `"140"` does not round-trip: the extraction routine returns video id
`"a"`, because `part.split('yt-')[1]` cuts at the second `yt-`
occurrence inside the id. -/
theorem filename_roundtrip_counterexample :
    extract_video_info_filepath
      (file_name_template "bos" "nya" "2021.04.07" "en" "H02M15S30" "44100"
        "No DRC" "mp4a.40.2" "3.0" "medium" "140" none "ayt-b") =
      (some "a", some "140") ∧ ("a" : String) ≠ "ayt-b" :=
  ⟨rfl, by decide⟩

/-- Helper: splitting at a character not occurring in the text. -/
theorem splitChar_no (c : Char) (s : List Char) (h : c ∉ s) :
    splitChar c s = [s] := by
  induction s with
  | nil => rfl
  | cons x xs ih =>
    have hxc : ¬(x == c) = true := by
      simp only [beq_iff_eq]
      intro hxx
      exact h (hxx ▸ List.mem_cons_self x xs)
    have hxs : c ∉ xs := fun hm => h (List.mem_cons_of_mem x hm)
    simp only [splitChar, if_neg hxc, ih hxs]

/-- Helper: splitting peels off a separator-free prefix. -/
theorem splitChar_append (c : Char) (pre rest : List Char) (h : c ∉ pre) :
    splitChar c (pre ++ c :: rest) = pre :: splitChar c rest := by
  induction pre with
  | nil => simp [splitChar]
  | cons x xs ih =>
    have hxc : ¬(x == c) = true := by
      simp only [beq_iff_eq]
      intro hxx
      exact h (hxx ▸ List.mem_cons_self x xs)
    have hxs : c ∉ xs := fun hm => h (List.mem_cons_of_mem x hm)
    simp only [List.cons_append, splitChar, if_neg hxc, List.append_eq, ih hxs]

/-- Helper: splitting a text assembled from a separator-free prefix and
separator-prefixed chunks recovers exactly those segments. -/
theorem splitChar_joined (chunks : List (List Char)) (pre : List Char)
    (hpre : lbraceC ∉ pre) (hch : ∀ ch ∈ chunks, lbraceC ∉ ch) :
    splitChar lbraceC
      (pre ++ (chunks.map (fun ch => lbraceC :: ch)).flatten) =
      pre :: chunks := by
  induction chunks generalizing pre with
  | nil => simpa [List.flatten] using splitChar_no lbraceC pre hpre
  | cons ch chs ih =>
    have hstep : pre ++ (((ch :: chs).map (fun ch => lbraceC :: ch)).flatten) =
        pre ++ lbraceC :: (ch ++ (chs.map (fun ch => lbraceC :: ch)).flatten) := by
      simp [List.flatten]
    rw [hstep, splitChar_append lbraceC pre _ hpre]
    rw [ih ch (hch ch (List.mem_cons_self ch chs))
      (fun m hm => hch m (List.mem_cons_of_mem ch hm))]

/-- Helper: `takeUntilSub` keeps a text in which the separator does not
occur. -/
theorem takeUntilSub_no (sep s : List Char) (hs : containsSub s sep = false) :
    takeUntilSub sep s = s := by
  induction s with
  | nil => rfl
  | cons x rest ih =>
    by_cases hst : startsWithL sep (x :: rest) = true
    · rw [containsSub, if_pos hst] at hs
      exact absurd hs (by simp)
    · have hrest : containsSub rest sep = false := by
        rw [containsSub, if_neg hst] at hs
        exact hs
      rw [takeUntilSub, if_neg hst, ih hrest]

/-- Helper: cutting at the closing brace recovers a brace-free payload. -/
theorem takeWhile_not_rbrace (F : List Char) (h : rbraceC ∉ F) :
    (F ++ [rbraceC]).takeWhile (fun c => !(c == rbraceC)) = F := by
  induction F with
  | nil => simp [List.takeWhile]
  | cons x xs ih =>
    have hx : (x == rbraceC) = false := by
      simp only [beq_eq_false_iff_ne, ne_eq]
      intro hxx
      exact h (hxx ▸ List.mem_cons_self x xs)
    have hxs : rbraceC ∉ xs := fun hm => h (List.mem_cons_of_mem x hm)
    simp [List.takeWhile, hx, ih hxs]

/-- Helper: a leading part that starts with neither token prefix leaves
the scan state untouched. -/
theorem extract_loop_step_pre (pre : List Char) (parts : List (List Char))
    (hyt : startsWithL "yt-".data pre = false)
    (hfid : startsWithL "fid-".data pre = false) :
    extract_video_info_loop (pre :: parts) none none =
      extract_video_info_loop parts none none := by
  simp only [extract_video_info_loop, hyt, hfid, Bool.false_eq_true, if_false,
    truthyChars, Bool.false_and]

/-- Helper: once the format id is collected, the scan walks over parts
that start with neither token prefix and finally collects the video id
from the `yt-` part. -/
theorem extract_loop_tail (F V : List Char) (mids : List (List Char))
    (hmids : ∀ m ∈ mids, startsWithL "yt-".data m = false ∧
      startsWithL "fid-".data m = false)
    (hV_cut : containsSub (V ++ [rbraceC]) "yt-".data = false)
    (hV_rb : rbraceC ∉ V) :
    extract_video_info_loop (mids ++ [("yt-".data ++ (V ++ [rbraceC]))])
      none (some F) = (some V, some F) := by
  induction mids with
  | nil =>
    have hyt2 : startsWithL "yt-".data ("yt-".data ++ (V ++ [rbraceC])) = true := rfl
    have hfid2 : startsWithL "fid-".data ("yt-".data ++ (V ++ [rbraceC])) = false := rfl
    have hdrop2 : ("yt-".data ++ (V ++ [rbraceC])).drop 3 = V ++ [rbraceC] := rfl
    simp only [List.nil_append, extract_video_info_loop, hyt2, hfid2, hdrop2,
      if_true, Bool.false_eq_true, if_false]
    rw [takeUntilSub_no _ _ hV_cut, takeWhile_not_rbrace V hV_rb]
    cases hb : truthyChars (some V) && truthyChars (some F) with
    | true => simp [hb]
    | false => simp [hb, extract_video_info_loop]
  | cons m ms ih =>
    have hm := hmids m (List.mem_cons_self m ms)
    simp only [List.cons_append, extract_video_info_loop, hm.1, hm.2,
      Bool.false_eq_true, if_false, truthyChars, Bool.false_and]
    exact ih (fun m2 hm2 => hmids m2 (List.mem_cons_of_mem m hm2))

/-- Helper: the scan over the assembled parts returns exactly the
embedded video id and format id. -/
theorem extract_loop_chunks (F V : List Char) (mids : List (List Char))
    (hmids : ∀ m ∈ mids, startsWithL "yt-".data m = false ∧
      startsWithL "fid-".data m = false)
    (hF_cut : containsSub (F ++ [rbraceC]) "fid-".data = false)
    (hF_rb : rbraceC ∉ F)
    (hV_cut : containsSub (V ++ [rbraceC]) "yt-".data = false)
    (hV_rb : rbraceC ∉ V) :
    extract_video_info_loop
      (("fid-".data ++ (F ++ [rbraceC])) ::
        (mids ++ [("yt-".data ++ (V ++ [rbraceC]))])) none none =
      (some V, some F) := by
  have hyt : startsWithL "yt-".data ("fid-".data ++ (F ++ [rbraceC])) = false := rfl
  have hfid : startsWithL "fid-".data ("fid-".data ++ (F ++ [rbraceC])) = true := rfl
  have hdrop : ("fid-".data ++ (F ++ [rbraceC])).drop 4 = F ++ [rbraceC] := rfl
  simp only [extract_video_info_loop, hyt, hfid, hdrop, if_true,
    Bool.false_eq_true, if_false]
  rw [takeUntilSub_no _ _ hF_cut, takeWhile_not_rbrace F hF_rb]
  simp only [truthyChars, Bool.false_and, Bool.false_eq_true, if_false]
  exact extract_loop_tail F V mids hmids hV_cut hV_rb

/-- C10 as amended. For every file name built by the line-241 template —
with or without a leading directory path and with or without the
`\x7be-...\x7d` token — the extraction routine recovers exactly the
embedded video id and format id, provided the pieces are well-formed:
the part before the tokens contains no opening brace and does not itself
begin with `yt-` or `fid-`, the video id and format id contain no
braces, `yt-` does not occur inside the video id (the counterexample
shows this proviso is necessary), `fid-` does not occur inside the
format id, and the event id contains no opening brace. -/
theorem filename_token_roundtrip
    (p away home fdate lang dur asr drc acodec quality note F V : String)
    (eId : Option String)
    (hpre_lb : lbraceC ∉
      (fileNamePre p away home fdate lang dur asr drc acodec quality note).data)
    (hpre_yt : startsWithL "yt-".data
      (fileNamePre p away home fdate lang dur asr drc acodec quality note).data = false)
    (hpre_fid : startsWithL "fid-".data
      (fileNamePre p away home fdate lang dur asr drc acodec quality note).data = false)
    (hF_lb : lbraceC ∉ F.data) (hF_rb : rbraceC ∉ F.data)
    (hF_cut : containsSub (F.data ++ [rbraceC]) "fid-".data = false)
    (hV_lb : lbraceC ∉ V.data) (hV_rb : rbraceC ∉ V.data)
    (hV_cut : containsSub (V.data ++ [rbraceC]) "yt-".data = false)
    (hE_lb : ∀ e, eId = some e → lbraceC ∉ e.data) :
    extract_video_info_filepath
      (p ++ file_name_template away home fdate lang dur asr drc acodec
        quality note F eId V) = (some V, some F) := by
  simp only [extract_video_info_filepath]
  cases eId with
  | none =>
    have hdata : (p ++ file_name_template away home fdate lang dur asr drc
        acodec quality note F none V).data =
        (fileNamePre p away home fdate lang dur asr drc acodec quality note).data ++
          (([("fid-".data ++ (F.data ++ [rbraceC])),
             ("yt-".data ++ (V.data ++ [rbraceC]))].map
            (fun ch => lbraceC :: ch)).flatten) := by
      have hempty : ("" : String).data = ([] : List Char) := rfl
      simp [file_name_template, fileNamePre, e_token, hempty,
        String.data_append, List.append_assoc]
    have hch : ∀ ch ∈ [("fid-".data ++ (F.data ++ [rbraceC])),
        ("yt-".data ++ (V.data ++ [rbraceC]))], lbraceC ∉ ch := by
      intro ch hchm
      simp only [List.mem_cons, List.not_mem_nil, or_false] at hchm
      rcases hchm with rfl | rfl
      · intro h
        rcases List.mem_append.mp h with h1 | h2
        · exact absurd h1 (by decide)
        · rcases List.mem_append.mp h2 with h3 | h4
          · exact hF_lb h3
          · exact absurd h4 (by decide)
      · intro h
        rcases List.mem_append.mp h with h1 | h2
        · exact absurd h1 (by decide)
        · rcases List.mem_append.mp h2 with h3 | h4
          · exact hV_lb h3
          · exact absurd h4 (by decide)
    rw [hdata, splitChar_joined _ _ hpre_lb hch,
      extract_loop_step_pre _ _ hpre_yt hpre_fid]
    have hloop := extract_loop_chunks F.data V.data []
      (by intro m hm; exact absurd hm (List.not_mem_nil m))
      hF_cut hF_rb hV_cut hV_rb
    simp only [List.nil_append] at hloop
    rw [hloop]
    rfl
  | some e =>
    have heb := hE_lb e rfl
    have hdata : (p ++ file_name_template away home fdate lang dur asr drc
        acodec quality note F (some e) V).data =
        (fileNamePre p away home fdate lang dur asr drc acodec quality note).data ++
          (([("fid-".data ++ (F.data ++ [rbraceC])),
             ("e-".data ++ (e.data ++ [rbraceC])),
             ("yt-".data ++ (V.data ++ [rbraceC]))].map
            (fun ch => lbraceC :: ch)).flatten) := by
      simp [file_name_template, fileNamePre, e_token,
        String.data_append, List.append_assoc]
    have hch : ∀ ch ∈ [("fid-".data ++ (F.data ++ [rbraceC])),
        ("e-".data ++ (e.data ++ [rbraceC])),
        ("yt-".data ++ (V.data ++ [rbraceC]))], lbraceC ∉ ch := by
      intro ch hchm
      simp only [List.mem_cons, List.not_mem_nil, or_false] at hchm
      rcases hchm with rfl | rfl | rfl
      · intro h
        rcases List.mem_append.mp h with h1 | h2
        · exact absurd h1 (by decide)
        · rcases List.mem_append.mp h2 with h3 | h4
          · exact hF_lb h3
          · exact absurd h4 (by decide)
      · intro h
        rcases List.mem_append.mp h with h1 | h2
        · exact absurd h1 (by decide)
        · rcases List.mem_append.mp h2 with h3 | h4
          · exact heb h3
          · exact absurd h4 (by decide)
      · intro h
        rcases List.mem_append.mp h with h1 | h2
        · exact absurd h1 (by decide)
        · rcases List.mem_append.mp h2 with h3 | h4
          · exact hV_lb h3
          · exact absurd h4 (by decide)
    rw [hdata, splitChar_joined _ _ hpre_lb hch,
      extract_loop_step_pre _ _ hpre_yt hpre_fid]
    have hloop := extract_loop_chunks F.data V.data
      [("e-".data ++ (e.data ++ [rbraceC]))]
      (by
        intro m hm
        rw [List.mem_singleton] at hm
        subst hm
        exact ⟨rfl, rfl⟩)
      hF_cut hF_rb hV_cut hV_rb
    simp only [List.singleton_append] at hloop
    rw [hloop]
    rfl

/-- Witness for the amended round-trip: a fully concrete file name in a
concrete date directory, with an event id token, from which the
extraction routine recovers the embedded video id and format id. -/
theorem filename_token_roundtrip_witness :
    extract_video_info_filepath
      ("/media/bigdaddy/data/yt-dlp-data/2021/04/07/" ++
        file_name_template "bos" "nya" "2021.04.07" "en" "H02M15S30"
          "44100" "No DRC" "mp4a.40.2" "3.0" "medium" "140"
          (some "401228642") "abc123def45") =
      (some "abc123def45", some "140") :=
  filename_token_roundtrip "/media/bigdaddy/data/yt-dlp-data/2021/04/07/"
    "bos" "nya" "2021.04.07" "en" "H02M15S30" "44100" "No DRC" "mp4a.40.2"
    "3.0" "medium" "140" "abc123def45" (some "401228642")
    (by decide) (by decide) (by decide) (by decide) (by decide) (by decide)
    (by decide) (by decide) (by decide)
    (fun e he => by injection he with h; exact h ▸ (by decide))

/-- C8 counterexample. A schedule event with season type 1 and all
required fields present is persisted by the current revision's
`process_event`, contradicting the claim that every event with season
type 1 is filtered out. -/
theorem season_type_one_event_persisted :
    eventType1.seasonType = some 1 ∧
    process_event eventType1 = .ok (some
      { event_id := "401",
        ny_time := { year := 2021, month := 5, day := 1, hour := 13, minute := 5 },
        season_type := 1, short_name := "BOS @ NYY",
        home_team := "NYY", away_team := "BOS",
        home_team_normalized := "nya", away_team_normalized := "bos" }) :=
  ⟨rfl, rfl⟩

/-- C8 as amended. The current revision persists an event only if its
id, date, short name and season type are truthy (so season type 0 or a
missing type is filtered, with no strictly-greater-than-1 comparison);
conversely an event whose competitor extraction is clean, whose six
required values are truthy and whose timestamp parses is persisted; the
season-type > 1 filter exists only in the earlier revision, which maps
every season-type-1 event to None. -/
theorem process_event_persists_iff_truthy :
    (∀ ev r, process_event ev = .ok (some r) →
      (truthyStr ev.id && truthyStr ev.date && truthyStr ev.shortName &&
       truthyInt ev.seasonType) = true) ∧
    (∀ ev home away utc,
      extractSides ev = .ok (home, away) →
      (truthyStr ev.id && truthyStr ev.date && truthyStr ev.shortName &&
       truthyInt ev.seasonType && truthyStr home && truthyStr away) = true →
      strptime_isoT (rstripZ (ev.date.getD "").data) = some utc →
      ∃ r, process_event ev = .ok (some r)) ∧
    (∀ ev home away, extractSides ev = .ok (home, away) →
      ev.seasonType = some 1 →
      process_event_legacy ev = .ok none) := by
  refine ⟨?_, ?_, ?_⟩
  · intro ev r h
    unfold process_event at h
    cases hs : extractSides ev with
    | error e =>
      rw [hs] at h
      cases e <;> simp at h
    | ok pair =>
      obtain ⟨home, away⟩ := pair
      rw [hs] at h
      dsimp only at h
      cases hc : (truthyStr ev.id && truthyStr ev.date && truthyStr ev.shortName &&
          truthyInt ev.seasonType && truthyStr home && truthyStr away) with
      | false =>
        rw [hc] at h
        simp at h
      | true =>
        simp only [Bool.and_eq_true] at hc ⊢
        exact ⟨⟨⟨hc.1.1.1.1.1, hc.1.1.1.1.2⟩, hc.1.1.1.2⟩, hc.1.1.2⟩
  · intro ev home away utc hs hc hutc
    unfold process_event
    rw [hs]
    dsimp only
    rw [if_neg (by simp [hc])]
    rw [hutc]
    exact ⟨_, rfl⟩
  · intro ev home away hs hst
    unfold process_event_legacy
    rw [hs, hst]
    simp

/-- Witness for amended C8: the persistence clause and the legacy filter
applied to the concrete season-type-1 event. -/
theorem process_event_persists_iff_truthy_witness :
    (∃ r, process_event eventType1 = .ok (some r)) ∧
    process_event_legacy eventType1 = .ok none := by
  constructor
  · exact process_event_persists_iff_truthy.2.1 eventType1 (some "NYY") (some "BOS")
      { year := 2021, month := 5, day := 1, hour := 17, minute := 5 }
      rfl (by decide) rfl
  · exact process_event_persists_iff_truthy.2.2 eventType1 (some "NYY") (some "BOS")
      rfl rfl

/-- C7. `Utils.extract_date` tries exactly the spec's ordered list of
regex/format pairs and returns the result of the first pattern that both
matches and parses as a valid calendar date (null if none succeed); in
particular the numeric MM.DD interpretation is tried first, so
`"Game on 07.04.2021 highlights"` yields July 4, 2021. -/
theorem extract_date_pattern_priority :
    (∀ t, extract_date t = dateExtractorSpec t) ∧
    extract_date "Game on 07.04.2021 highlights".data =
      some { year := 2021, month := 7, day := 4, hour := 0, minute := 0 } := by
  constructor
  · intro t
    simp only [dateExtractorSpec, dateExtractorPatterns, firstMatchingDate]
    rfl
  · decide

/-- C4. In a run seeded with zero user ids, zero playlist ids, and any
list of seed video ids, the user, playlist, and video worker pools all
terminate immediately — but, contrary to the claim, the seed ids are
never inserted into storage and no bulk upsert call is issued, because
line 166 of video_id.py invokes the async seeding helper without
`await` (and the helper itself calls `insert_video_ids` unawaited).  In
particular seeding with `["v1"]` leaves the store empty. -/
theorem seed_video_ids_never_inserted :
    (∀ (seeds : List String) (db : VideoIdStore) (n : Nat),
      fetch_id_pipeline_seed_videos seeds (n + 1) db =
        { db := db, insertCalls := 0, userExitsImmediately := true,
          playlistExitsImmediately := true, videoExitsImmediately := true }) ∧
    (fetch_id_pipeline_seed_videos ["v1"] 1 []).db = [] := by
  constructor
  · intro seeds db n
    rfl
  · rfl

/-- Witness for C3: id "a" is quarantined in a two-row table and stays
quarantined and unselectable across a later bulk insert and a later
update of a different id. -/
theorem quarantine_monotonicity_witness :
    lookupFlag
      (applyVideosOps [VideosOp.bulkInsert ["a", "c"], VideosOp.setFailed ["b"]]
        (set_video_id_failed_metadata_true ["a"] [("a", false), ("b", false)])) "a"
      = some true ∧
    "a" ∉ get_video_ids_without_metadata_pool
      (applyVideosOps [VideosOp.bulkInsert ["a", "c"], VideosOp.setFailed ["b"]]
        (set_video_id_failed_metadata_true ["a"] [("a", false), ("b", false)])) :=
  quarantine_monotonicity [("a", false), ("b", false)] "a" ["a"]
    [VideosOp.bulkInsert ["a", "c"], VideosOp.setFailed ["b"]]
    (by decide) (by decide) (by decide)

end YtDlp
